import Mathlib

/-! CP_Sound.c: sound cache, mixing groups and DSP registry.

A shallow embedding of `Processing_Sample/CProcessing/Source/CP_Sound.c`.

* The file-level statics (`result`, `_fmod_system`, `sound_vector`,
  `channel_groups`, `dsp_list`) are the fields of `State`, passed explicitly.
* FMOD is a black box.  Every FMOD function the source calls is recorded, in
  order, in `State.calls`; what FMOD answers is given by a `Backend`, an
  arbitrary sequence of replies, so that every statement quantified over the
  backend covers every pattern of successes and failures.
* `malloc` is an `Allocator`: it may fail, and a block it returns is never one
  that is still live.
* A call that does not return normally (a read through a null or dangling
  pointer, an array access outside the declared bounds, the runtime-constraint
  handler of `strcpy_s`) is `Except.error`.
* A C `float` that the source stores, compares or passes on is the rational it
  is exactly (a decimal literal of the source stands for the `float` nearest to
  it).  The one place where the source computes with `float`,
  `CP_Sound_SetDSPParameter`, is evaluated in binary32 arithmetic (`F32`): each
  operation rounds to nearest, ties to even, and can give an infinity or a NaN.
-/

namespace CPSound

/-! ## Values -/

/-- A C pointer or an FMOD handle, as an address. -/
abbrev Ptr := Nat

/-- The null pointer. -/
abbrev NULL : Ptr := 0

/-- The result code of an FMOD call (`FMOD_RESULT`). -/
abbrev FMOD_RESULT := Int

/-- The result code of a successful FMOD call. -/
abbrev FMOD_OK : FMOD_RESULT := 0

/-- `#define MAX_FMOD_CHANNELS 128` -/
abbrev MAX_FMOD_CHANNELS : Nat := 128

/-- `#define FMOD_TRUE 1` -/
abbrev FMOD_TRUE : Int := 1

/-- `#define FMOD_FALSE 0` -/
abbrev FMOD_FALSE : Int := 0

/-- `#define CP_SOUND_DSP_PARAM_NOTUSED -1` -/
abbrev CP_SOUND_DSP_PARAM_NOTUSED : Int := -1

/-- Modelled from the spec: the enumeration `CP_SOUND_DSP` of `cprocessing.h`, which is not
among the sources.  The spec lists eight effect slots in this order (lowpass, reverb, echo,
distortion, flange, tremolo, chorus, pitch-shift); they are numbered from 0 and
`CP_SOUND_DSP_MAX` closes the enumeration. -/
abbrev CP_SOUND_DSP_LOWPASS : Int := 0

/-- Modelled from the spec: see `CP_SOUND_DSP_LOWPASS`. -/
abbrev CP_SOUND_DSP_REVERB : Int := 1

/-- Modelled from the spec: see `CP_SOUND_DSP_LOWPASS`. -/
abbrev CP_SOUND_DSP_ECHO : Int := 2

/-- Modelled from the spec: see `CP_SOUND_DSP_LOWPASS`. -/
abbrev CP_SOUND_DSP_DISTORT : Int := 3

/-- Modelled from the spec: see `CP_SOUND_DSP_LOWPASS`. -/
abbrev CP_SOUND_DSP_FLANGE : Int := 4

/-- Modelled from the spec: see `CP_SOUND_DSP_LOWPASS`. -/
abbrev CP_SOUND_DSP_TREMOLO : Int := 5

/-- Modelled from the spec: see `CP_SOUND_DSP_LOWPASS`. -/
abbrev CP_SOUND_DSP_CHORUS : Int := 6

/-- Modelled from the spec: see `CP_SOUND_DSP_LOWPASS`. -/
abbrev CP_SOUND_DSP_PITCH : Int := 7

/-- Modelled from the spec: see `CP_SOUND_DSP_LOWPASS`. -/
abbrev CP_SOUND_DSP_MAX : Nat := 8

/-- Modelled from the spec: the enumeration `CP_SOUND_DSP_PARAM` of `cprocessing.h`, which is
not among the sources; the spec gives the two parameter positions as 0 and 1. -/
abbrev CP_SOUND_DSP_PARAM1 : Int := 0

/-- Modelled from the spec: see `CP_SOUND_DSP_PARAM1`. -/
abbrev CP_SOUND_DSP_PARAM2 : Int := 1

/-- The constants the source takes from headers that are not among the sources: the size and
the two named members of the enumeration `CP_SOUND_GROUP` (`cprocessing.h`) and `MAX_PATH`
(the platform header).  They are parameters of the embedding. -/
structure Header where
  CP_SOUND_GROUP_MAX : Nat
  CP_SOUND_GROUP_SFX : Int
  CP_SOUND_GROUP_MUSIC : Int
  MAX_PATH : Nat
deriving DecidableEq, Repr

/-- A value of the C type `float` (IEEE binary32) as the result of a computation: a finite
value, given as the rational it is exactly (the sign of a zero is not represented), an
infinity, or a NaN. -/
inductive F32
  | finite (q : ℚ)
  | inf (negative : Bool)
  | nan
deriving DecidableEq, Repr

/-- The number of binary digits of `n` after the first, `⌊log₂ n⌋` for `n ≥ 1`.  The first
argument bounds the number of halvings and is given as `n`. -/
def log2Floor : Nat → Nat → Nat
  | 0, _ => 0
  | fuel + 1, n => if 2 ≤ n then log2Floor fuel (n / 2) + 1 else 0

/-- The integer nearest to `N / D`, the even one of the two when `N / D` lies halfway. -/
def roundHalfEven (N D : Nat) : Nat :=
  if D < 2 * (N % D) ∨ (2 * (N % D) = D ∧ (N / D) % 2 = 1) then N / D + 1 else N / D

/-- The exponent `⌊log₂ (n / d)⌋` of a positive rational `n / d`. -/
def exponentOf (n d : Nat) : Int :=
  let e0 : Int := (log2Floor n n : Int) - (log2Floor d d : Int)
  if 0 ≤ e0 then
    if d * 2 ^ e0.toNat ≤ n then e0 else e0 - 1
  else
    if d ≤ n * 2 ^ (-e0).toNat then e0 else e0 - 1

/-- The conversion of a real number to binary32, to nearest, ties to even: 24 significant
bits, exponents from -126 (below which the spacing stays `2 ^ (-149)`) to 127 (above which the
result is an infinity).  It leaves a binary32 value as it is, and gives to a decimal literal
the `float` the compiler gives it. -/
def F32.ofRat (q : ℚ) : F32 :=
  if q = 0 then .finite 0
  else
    let s : Int := max (exponentOf q.num.natAbs q.den) (-126) - 23
    let m : ℚ :=
      if 0 ≤ s then ((roundHalfEven q.num.natAbs (q.den * 2 ^ s.toNat) * 2 ^ s.toNat : Nat) : ℚ)
      else mkRat (roundHalfEven (q.num.natAbs * 2 ^ (-s).toNat) q.den) (2 ^ (-s).toNat)
    if (2 : ℚ) ^ 128 ≤ m then .inf (decide (q < 0))
    else .finite (if q < 0 then -m else m)

/-- Negation of a `float`. -/
def F32.neg : F32 → F32
  | .finite x => .finite (-x)
  | .inf negative => .inf (!negative)
  | .nan => .nan

/-- The `float` addition: the exact sum, rounded. -/
def F32.add : F32 → F32 → F32
  | .finite x, .finite y => F32.ofRat (x + y)
  | .finite _, .inf negative => .inf negative
  | .inf negative, .finite _ => .inf negative
  | .inf n1, .inf n2 => if n1 = n2 then .inf n1 else .nan
  | _, _ => .nan

/-- The `float` subtraction. -/
def F32.sub (a b : F32) : F32 :=
  F32.add a (F32.neg b)

/-- The `float` multiplication: the exact product, rounded. -/
def F32.mul : F32 → F32 → F32
  | .finite x, .finite y => F32.ofRat (x * y)
  | .finite x, .inf negative => if x = 0 then .nan else .inf (xor (decide (x < 0)) negative)
  | .inf negative, .finite y => if y = 0 then .nan else .inf (xor negative (decide (y < 0)))
  | .inf n1, .inf n2 => .inf (xor n1 n2)
  | _, _ => .nan

/-- The effect types handed to `FMOD_System_CreateDSPByType`. -/
inductive FMOD_DSP_TYPE
  | ITLOWPASS
  | SFXREVERB
  | ECHO
  | DISTORTION
  | FLANGE
  | TREMOLO
  | CHORUS
  | PITCHSHIFT
deriving DecidableEq, Repr

/-- The FMOD functions the source calls, with the arguments it passes (output parameters and
constant flag arguments left out). -/
inductive FMODCall
  | System_Create
  | System_Init (system : Ptr) (maxchannels : Nat)
  | System_CreateChannelGroup (system : Ptr)
  | System_CreateDSPByType (system : Ptr) (type : FMOD_DSP_TYPE)
  | System_Update (system : Ptr)
  | System_Release (system : Ptr)
  | System_CreateStream (system : Ptr) (name : String)
  | System_CreateSound (system : Ptr) (name : String)
  | System_PlaySound (system : Ptr) (sound : Ptr) (channelgroup : Ptr) (paused : Int)
  | Sound_Release (sound : Ptr)
  | Channel_SetVolume (channel : Ptr) (volume : ℚ)
  | Channel_SetPitch (channel : Ptr) (pitch : ℚ)
  | Channel_SetMode_LOOP_NORMAL (channel : Ptr)
  | Channel_SetLoopCount (channel : Ptr) (loopcount : Int)
  | Channel_SetPaused (channel : Ptr) (paused : Int)
  | ChannelGroup_SetPaused (channelgroup : Ptr) (paused : Int)
  | ChannelGroup_Stop (channelgroup : Ptr)
  | ChannelGroup_SetVolume (channelgroup : Ptr) (volume : ℚ)
  | ChannelGroup_GetVolume (channelgroup : Ptr)
  | ChannelGroup_SetPitch (channelgroup : Ptr) (pitch : ℚ)
  | ChannelGroup_GetPitch (channelgroup : Ptr)
  | ChannelGroup_AddDSP (channelgroup : Ptr) (index : Int) (dsp : Ptr)
  | ChannelGroup_RemoveDSP (channelgroup : Ptr) (dsp : Ptr)
  | DSP_SetActive (dsp : Ptr) (active : Int)
  | DSP_SetParameterFloat (dsp : Ptr) (index : Int) (value : F32)
  | DSP_Reset (dsp : Ptr)
deriving DecidableEq, Repr

/-- What FMOD answers to one call: the result code, and what it stores through the output
parameter of the call when there is one (a handle or a float). -/
structure FMODReply where
  result : FMOD_RESULT
  handle : Ptr
  value : ℚ
deriving DecidableEq, Repr

/-- The audio backend: `B n` is its answer to the call number `n` (counted from 0) of the
run.  Any sequence of answers is a backend. -/
abbrev Backend := Nat → FMODReply

/-- The ways a call can fail to return normally. -/
inductive Fault
  | invalidPointer
  | outOfBounds
  | constraintViolation
deriving DecidableEq, Repr

/-- `malloc`: given the blocks that are live and the number of backend calls made so far, the
address of a new block, or `NULL`.  A new block is never a live one. -/
structure Allocator where
  malloc : List Ptr → Nat → Ptr
  fresh : ∀ live n, malloc live n ≠ NULL → malloc live n ∉ live

/-! ## Data model (`Internal_Sound.h`) -/

/-- `CP_Sound_Struct`: the file path and the FMOD sound. -/
structure CP_Sound_Struct where
  filepath : String
  sound : Ptr
deriving DecidableEq, Repr

/-- Modelled from the spec: `CP_Sound_DSP_Param_Struct` of `cprocessing.h`, which is not among
the sources: a native parameter index and a native range. -/
structure CP_Sound_DSP_Param_Struct where
  index : Int
  min : ℚ
  max : ℚ
deriving DecidableEq, Repr

/-- `CP_Sound_DSP_Struct`: the FMOD DSP and the array `param[2]`. -/
structure CP_Sound_DSP_Struct where
  dsp : Ptr
  param : List CP_Sound_DSP_Param_Struct
deriving DecidableEq, Repr

/-- A `CP_Sound` held by the sound vector: the pointer, with the struct it points to.  The
struct is allocated right before the pointer is pushed and freed exactly when the pointer is
removed, so the entries of the vector are the live structs. -/
abbrev Entry := Ptr × CP_Sound_Struct

/-- The statics of `CP_Sound.c`, with the trace of backend calls and the standard output.
`sound_vector` is `none` while the pointer is null (before `CP_Sound_Init`) or dangling (after
`vect_free` in `CP_Sound_Shutdown`). -/
structure State where
  result : FMOD_RESULT
  _fmod_system : Ptr
  sound_vector : Option (List Entry)
  channel_groups : List Ptr
  dsp_list : List CP_Sound_DSP_Struct
  calls : List FMODCall
  stdout : List String
deriving DecidableEq, Repr

/-- The static arrays have their declared sizes: `channel_groups[CP_SOUND_GROUP_MAX]`,
`dsp_list[CP_SOUND_DSP_MAX]` and `param[2]`. -/
def State.WF (H : Header) (s : State) : Prop :=
  s.channel_groups.length = H.CP_SOUND_GROUP_MAX ∧
  s.dsp_list.length = CP_SOUND_DSP_MAX ∧
  ∀ d ∈ s.dsp_list, d.param.length = 2

/-- The statics at program start: zero-initialised. -/
def State.initial (H : Header) : State :=
  { result := 0
    _fmod_system := NULL
    sound_vector := none
    channel_groups := List.replicate H.CP_SOUND_GROUP_MAX NULL
    dsp_list := List.replicate CP_SOUND_DSP_MAX ⟨NULL, List.replicate 2 ⟨0, 0, 0⟩⟩
    calls := []
    stdout := [] }

/-! ## Helpers of the embedding -/

/-- The answer of the backend to the next call. -/
def reply (B : Backend) (s : State) : FMODReply :=
  B s.calls.length

/-- Record a backend call in the trace. -/
def issue (s : State) (c : FMODCall) : State :=
  { s with calls := s.calls ++ [c] }

/-- Read `a[i]` in a C array. -/
def arrayAt {α : Type} (a : List α) (i : Int) : Except Fault α :=
  if i < 0 then .error .outOfBounds
  else
    match a[i.toNat]? with
    | some x => .ok x
    | none => .error .outOfBounds

/-- Write `a[i] = x` in a C array. -/
def arraySet {α : Type} (a : List α) (i : Int) (x : α) : Except Fault (List α) :=
  if i < 0 then .error .outOfBounds
  else if i.toNat < a.length then .ok (a.set i.toNat x)
  else .error .outOfBounds

/-- Modelled from the spec: `strlen`, the number of bytes of a C string. -/
def strlen (str : String) : Nat :=
  str.utf8ByteSize

/-- Modelled from the spec: `vect_rem_CP_Sound` of `vect.h`, which is not among the sources:
remove the element at index `i`, the later elements moving down. -/
def vect_rem (v : List Entry) (i : Nat) : List Entry :=
  v.eraseIdx i

/-- Modelled from the spec: `vect_push_CP_Sound` of `vect.h`, which is not among the sources:
append at the end. -/
def vect_push (v : List Entry) (e : Entry) : List Entry :=
  v ++ [e]

/-- The dereference `sound->sound` of a `CP_Sound` held by the caller: the struct is live
exactly while the pointer is in the sound vector. -/
def derefSound (s : State) (sound : Ptr) : Except Fault CP_Sound_Struct :=
  match s.sound_vector with
  | none => .error .invalidPointer
  | some v =>
    match v.find? (fun e => e.1 == sound) with
    | some e => .ok e.2
    | none => .error .invalidPointer

/-! ## Internal functions -/

/-- `CP_IsValidSoundGroup`. -/
def CP_IsValidSoundGroup (H : Header) (group : Int) : Bool :=
  decide (group ≥ 0) && decide (group < H.CP_SOUND_GROUP_MAX)

/-- The loop of `CP_CheckIfSoundIsLoaded` over the elements of the vector. -/
def checkLoop (filepath : String) : List Entry → Ptr
  | [] => NULL
  | snd :: rest =>
    if snd.1 ≠ NULL ∧ filepath = snd.2.filepath then snd.1
    else checkLoop filepath rest

/-- `CP_CheckIfSoundIsLoaded`. -/
def CP_CheckIfSoundIsLoaded (s : State) (filepath : String) : Except Fault Ptr :=
  match s.sound_vector with
  | none => .error .invalidPointer
  | some v => .ok (checkLoop filepath v)

/-- The loop shared by `CP_Sound_PauseAll`, `CP_Sound_ResumeAll` and `CP_Sound_StopAll`:
for `index` up to `CP_SOUND_GROUP_MAX`, one backend call on `channel_groups[index]`, its
result stored in `result`.  `n` is the number of iterations left. -/
def groupLoop (B : Backend) (mk : Ptr → FMODCall) : Nat → Nat → State → Except Fault State
  | 0, _, s => .ok s
  | n + 1, index, s =>
    match arrayAt s.channel_groups index with
    | .error e => .error e
    | .ok cg =>
      groupLoop B mk n (index + 1) { issue s (mk cg) with result := (reply B s).result }

/-- `CP_Sound_StopAll`. -/
def CP_Sound_StopAll (B : Backend) (H : Header) (s : State) : Except Fault State :=
  groupLoop B .ChannelGroup_Stop H.CP_SOUND_GROUP_MAX 0 s

/-- The loop of `CP_Sound_Shutdown` over the sound vector: release each FMOD sound and free
the struct. -/
def releaseLoop : List Entry → State → State
  | [], s => s
  | sound :: rest, s => releaseLoop rest (issue s (.Sound_Release sound.2.sound))

/-- `CP_Sound_Shutdown`. -/
def CP_Sound_Shutdown (B : Backend) (H : Header) (s : State) : Except Fault State :=
  if s._fmod_system ≠ NULL then
    match CP_Sound_StopAll B H s with
    | .error e => .error e
    | .ok s1 =>
      match s1.sound_vector with
      | none => .error .invalidPointer
      | some v =>
        let s2 := releaseLoop v s1
        let s3 := { s2 with sound_vector := none }
        let s4 := issue s3 (.System_Release s3._fmod_system)
        .ok { s4 with _fmod_system := NULL }
  else .ok s

/-- `CP_Sound_DSP_MapParameter`. -/
def CP_Sound_DSP_MapParameter (s : State) (dsp : Int) (param : Int) (index : Int)
    (min : ℚ) (max : ℚ) : Except Fault State :=
  match arrayAt s.dsp_list dsp with
  | .error e => .error e
  | .ok d =>
    match arraySet d.param param ⟨index, min, max⟩ with
    | .error e => .error e
    | .ok param1 =>
      match arraySet s.dsp_list dsp { d with param := param1 } with
      | .error e => .error e
      | .ok l => .ok { s with dsp_list := l }

/-- The loop of `CP_Sound_Init` that creates the channel groups: it runs while
`index < CP_SOUND_GROUP_MAX && result == FMOD_OK`.  `n` is the number of indices left. -/
def createGroupsLoop (B : Backend) : Nat → Nat → State → Except Fault State
  | 0, _, s => .ok s
  | n + 1, index, s =>
    if s.result = FMOD_OK then
      match arraySet s.channel_groups index (reply B s).handle with
      | .error e => .error e
      | .ok groups =>
        createGroupsLoop B n (index + 1)
          { issue s (.System_CreateChannelGroup s._fmod_system) with
            result := (reply B s).result
            channel_groups := groups }
    else .ok s

/-- One row of the DSP part of `CP_Sound_Init`: the effect type, the slot, and the two
parameter mappings (native index, min, max). -/
structure DSPRow where
  type : FMOD_DSP_TYPE
  dsp : Int
  param1 : Int × ℚ × ℚ
  param2 : Int × ℚ × ℚ
deriving DecidableEq, Repr

/-- The eight blocks of `CP_Sound_Init` that create a DSP and map its parameters, in source
order. -/
def dspRows : List DSPRow :=
  [ ⟨.ITLOWPASS, CP_SOUND_DSP_LOWPASS, (0, 1, 22000), (1, 0, 127)⟩,
    ⟨.SFXREVERB, CP_SOUND_DSP_REVERB, (0, 100, 20000), (11, -80, 20)⟩,
    ⟨.ECHO, CP_SOUND_DSP_ECHO, (0, 1, 5000), (1, 0, 100)⟩,
    ⟨.DISTORTION, CP_SOUND_DSP_DISTORT, (0, 0, 1), (CP_SOUND_DSP_PARAM_NOTUSED, 0, 0)⟩,
    ⟨.FLANGE, CP_SOUND_DSP_FLANGE, (2, 0, 20), (0, 0, 100)⟩,
    ⟨.TREMOLO, CP_SOUND_DSP_TREMOLO, (0, 0.1, 20), (1, 0, 1)⟩,
    ⟨.CHORUS, CP_SOUND_DSP_CHORUS, (2, 0, 100), (0, 0, 100)⟩,
    ⟨.PITCHSHIFT, CP_SOUND_DSP_PITCH, (0, 0.5, 2), (CP_SOUND_DSP_PARAM_NOTUSED, 0, 0)⟩ ]

/-- The DSP part of `CP_Sound_Init`: for each row, create the DSP into `dsp_list[dsp].dsp`;
on failure shut down and return; otherwise map the two parameters and go on. -/
def initDSPs (B : Backend) (H : Header) : List DSPRow → State → Except Fault State
  | [], s => .ok s
  | row :: rows, s =>
    match arrayAt s.dsp_list row.dsp with
    | .error e => .error e
    | .ok d =>
      match arraySet s.dsp_list row.dsp { d with dsp := (reply B s).handle } with
      | .error e => .error e
      | .ok l =>
        let s1 : State :=
          { issue s (.System_CreateDSPByType s._fmod_system row.type) with
            result := (reply B s).result
            dsp_list := l }
        if s1.result ≠ FMOD_OK then CP_Sound_Shutdown B H s1
        else
          match CP_Sound_DSP_MapParameter s1 row.dsp CP_SOUND_DSP_PARAM1
              row.param1.1 row.param1.2.1 row.param1.2.2 with
          | .error e => .error e
          | .ok s2 =>
            match CP_Sound_DSP_MapParameter s2 row.dsp CP_SOUND_DSP_PARAM2
                row.param2.1 row.param2.2.1 row.param2.2.2 with
            | .error e => .error e
            | .ok s3 => initDSPs B H rows s3

/-- `CP_Sound_Init`. -/
def CP_Sound_Init (B : Backend) (H : Header) (s : State) : Except Fault State :=
  let s0 : State := { s with sound_vector := some [] }
  let s1 : State :=
    { issue s0 .System_Create with
      result := (reply B s0).result
      _fmod_system := (reply B s0).handle }
  if s1.result ≠ FMOD_OK then
    .ok { s1 with stdout := s1.stdout ++ ["audio error"], _fmod_system := NULL }
  else
    let s2 : State :=
      { issue s1 (.System_Init s1._fmod_system MAX_FMOD_CHANNELS) with
        result := (reply B s1).result }
    if s2.result ≠ FMOD_OK then .ok { s2 with _fmod_system := NULL }
    else
      match createGroupsLoop B H.CP_SOUND_GROUP_MAX 0 s2 with
      | .error e => .error e
      | .ok s3 =>
        if s3.result ≠ FMOD_OK then CP_Sound_Shutdown B H s3
        else initDSPs B H dspRows s3

/-- `CP_Sound_Update`. -/
def CP_Sound_Update (B : Backend) (H : Header) (s : State) : Except Fault State :=
  if s._fmod_system ≠ NULL then
    let s1 : State :=
      { issue s (.System_Update s._fmod_system) with result := (reply B s).result }
    if s1.result ≠ FMOD_OK then CP_Sound_Shutdown B H s1
    else .ok s1
  else .ok s

/-- `CP_Sound_LoadInternal`.  `filepath` is `none` for a null pointer. -/
def CP_Sound_LoadInternal (B : Backend) (A : Allocator) (H : Header) (s : State)
    (filepath : Option String) (streamFromDisc : Bool) : Except Fault (Ptr × State) :=
  match filepath with
  | none => .ok (NULL, s)
  | some path =>
    match CP_CheckIfSoundIsLoaded s path with
    | .error e => .error e
    | .ok found =>
      if found ≠ NULL then .ok (found, s)
      else
        match s.sound_vector with
        | none => .error .invalidPointer
        | some v =>
          let sound := A.malloc (v.map Prod.fst) s.calls.length
          if sound = NULL then .ok (NULL, s)
          else
            let s1 : State :=
              { issue s (if streamFromDisc then .System_CreateStream s._fmod_system path
                  else .System_CreateSound s._fmod_system path) with
                result := (reply B s).result }
            if s1.result ≠ FMOD_OK then .ok (NULL, s1)
            else if H.MAX_PATH ≤ strlen path then .error .constraintViolation
            else
              .ok (sound, { s1 with
                sound_vector := some (vect_push v (sound, ⟨path, (reply B s).handle⟩)) })

/-! ## Library functions -/

/-- `CP_Sound_Load`. -/
def CP_Sound_Load (B : Backend) (A : Allocator) (H : Header) (s : State)
    (filepath : Option String) : Except Fault (Ptr × State) :=
  CP_Sound_LoadInternal B A H s filepath false

/-- `CP_Sound_LoadMusic`. -/
def CP_Sound_LoadMusic (B : Backend) (A : Allocator) (H : Header) (s : State)
    (filepath : Option String) : Except Fault (Ptr × State) :=
  CP_Sound_LoadInternal B A H s filepath true

/-- The loop of `CP_Sound_Free`: the index of the first element of the vector equal to the
pointer, with that element. -/
def findLoop (sound : Ptr) : List Entry → Nat → Option (Nat × Entry)
  | [], _ => none
  | e :: rest, i => if e.1 = sound then some (i, e) else findLoop sound rest (i + 1)

/-- `CP_Sound_Free`.  `sound` is `none` for a null `CP_Sound*`, and `some p` when it points to
a `CP_Sound` variable holding `p`; the result gives what the variable holds afterwards. -/
def CP_Sound_Free (s : State) (sound : Option Ptr) : Except Fault (Option Ptr × State) :=
  match sound with
  | none => .ok (none, s)
  | some p =>
    if p = NULL then .ok (some p, s)
    else
      match s.sound_vector with
      | none => .error .invalidPointer
      | some v =>
        match findLoop p v 0 with
        | some (i, e) =>
          .ok (some NULL,
            { issue s (.Sound_Release e.2.sound) with sound_vector := some (vect_rem v i) })
        | none => .ok (some p, s)

/-- `CP_Sound_PlayAdvanced`. -/
def CP_Sound_PlayAdvanced (B : Backend) (H : Header) (s : State) (sound : Ptr) (volume : ℚ)
    (pitch : ℚ) (looping : Bool) (group : Int) : Except Fault State :=
  if !CP_IsValidSoundGroup H group || sound = NULL then .ok s
  else
    match derefSound s sound with
    | .error e => .error e
    | .ok snd =>
      match arrayAt s.channel_groups group with
      | .error e => .error e
      | .ok cg =>
        let channel := (reply B s).handle
        let s1 : State :=
          { issue s (.System_PlaySound s._fmod_system snd.sound cg FMOD_TRUE) with
            result := (reply B s).result }
        if s1.result ≠ FMOD_OK then .ok s1
        else
          let s2 : State :=
            if volume ≠ 1 then
              { issue s1 (.Channel_SetVolume channel (if volume < 0 then 0 else volume)) with
                result := (reply B s1).result }
            else s1
          let s3 : State :=
            if pitch ≠ 1 then
              { issue s2 (.Channel_SetPitch channel (if pitch < 0 then 0 else pitch)) with
                result := (reply B s2).result }
            else s2
          let s4 : State :=
            if looping then
              let t : State :=
                { issue s3 (.Channel_SetMode_LOOP_NORMAL channel) with
                  result := (reply B s3).result }
              { issue t (.Channel_SetLoopCount channel (-1)) with
                result := (reply B t).result }
            else s3
          .ok { issue s4 (.Channel_SetPaused channel FMOD_FALSE) with
                result := (reply B s4).result }

/-- `CP_Sound_Play`. -/
def CP_Sound_Play (B : Backend) (H : Header) (s : State) (sound : Ptr) : Except Fault State :=
  CP_Sound_PlayAdvanced B H s sound 1 1 false H.CP_SOUND_GROUP_SFX

/-- `CP_Sound_PlayMusic`. -/
def CP_Sound_PlayMusic (B : Backend) (H : Header) (s : State) (sound : Ptr) :
    Except Fault State :=
  CP_Sound_PlayAdvanced B H s sound 1 1 true H.CP_SOUND_GROUP_MUSIC

/-- The body shared by the single-group controls: if the group is valid, one backend call on
`channel_groups[group]`, its result stored in `result`. -/
def groupCall (B : Backend) (H : Header) (mk : Ptr → FMODCall) (s : State) (group : Int) :
    Except Fault State :=
  if CP_IsValidSoundGroup H group then
    match arrayAt s.channel_groups group with
    | .error e => .error e
    | .ok cg => .ok { issue s (mk cg) with result := (reply B s).result }
  else .ok s

/-- `CP_Sound_PauseAll`. -/
def CP_Sound_PauseAll (B : Backend) (H : Header) (s : State) : Except Fault State :=
  groupLoop B (fun cg => .ChannelGroup_SetPaused cg FMOD_TRUE) H.CP_SOUND_GROUP_MAX 0 s

/-- `CP_Sound_PauseGroup`. -/
def CP_Sound_PauseGroup (B : Backend) (H : Header) (s : State) (group : Int) :
    Except Fault State :=
  groupCall B H (fun cg => .ChannelGroup_SetPaused cg FMOD_TRUE) s group

/-- `CP_Sound_ResumeAll`. -/
def CP_Sound_ResumeAll (B : Backend) (H : Header) (s : State) : Except Fault State :=
  groupLoop B (fun cg => .ChannelGroup_SetPaused cg FMOD_FALSE) H.CP_SOUND_GROUP_MAX 0 s

/-- `CP_Sound_ResumeGroup`. -/
def CP_Sound_ResumeGroup (B : Backend) (H : Header) (s : State) (group : Int) :
    Except Fault State :=
  groupCall B H (fun cg => .ChannelGroup_SetPaused cg FMOD_FALSE) s group

/-- `CP_Sound_StopGroup`. -/
def CP_Sound_StopGroup (B : Backend) (H : Header) (s : State) (group : Int) :
    Except Fault State :=
  groupCall B H .ChannelGroup_Stop s group

/-- `CP_Sound_SetGroupVolume`. -/
def CP_Sound_SetGroupVolume (B : Backend) (H : Header) (s : State) (group : Int)
    (volume : ℚ) : Except Fault State :=
  groupCall B H (fun cg => .ChannelGroup_SetVolume cg volume) s group

/-- `CP_Sound_GetGroupVolume`. -/
def CP_Sound_GetGroupVolume (B : Backend) (H : Header) (s : State) (group : Int) :
    Except Fault (ℚ × State) :=
  let volume : ℚ := 0
  if CP_IsValidSoundGroup H group then
    match arrayAt s.channel_groups group with
    | .error e => .error e
    | .ok cg =>
      .ok ((reply B s).value,
        { issue s (.ChannelGroup_GetVolume cg) with result := (reply B s).result })
  else .ok (volume, s)

/-- `CP_Sound_SetGroupPitch`. -/
def CP_Sound_SetGroupPitch (B : Backend) (H : Header) (s : State) (group : Int)
    (pitch : ℚ) : Except Fault State :=
  groupCall B H (fun cg => .ChannelGroup_SetPitch cg pitch) s group

/-- `CP_Sound_GetGroupPitch`. -/
def CP_Sound_GetGroupPitch (B : Backend) (H : Header) (s : State) (group : Int) :
    Except Fault (ℚ × State) :=
  let pitch : ℚ := 0
  if CP_IsValidSoundGroup H group then
    match arrayAt s.channel_groups group with
    | .error e => .error e
    | .ok cg =>
      .ok ((reply B s).value,
        { issue s (.ChannelGroup_GetPitch cg) with result := (reply B s).result })
  else .ok (pitch, s)

/-- `CP_Sound_SetGroupDSP`. -/
def CP_Sound_SetGroupDSP (B : Backend) (H : Header) (s : State) (group : Int)
    (dspType : Int) : Except Fault State :=
  if CP_IsValidSoundGroup H group then
    match arrayAt s.channel_groups group with
    | .error e => .error e
    | .ok cg =>
      match arrayAt s.dsp_list dspType with
      | .error e => .error e
      | .ok d =>
        let s1 : State :=
          { issue s (.ChannelGroup_AddDSP cg 0 d.dsp) with result := (reply B s).result }
        .ok { issue s1 (.DSP_SetActive d.dsp 1) with result := (reply B s1).result }
  else .ok s

/-- The loop of `CP_Sound_ClearGroupDSP` over the DSP slots, from slot `dsp` on.  `n` is the
number of slots left. -/
def clearLoop (B : Backend) (cg : Ptr) : Nat → Nat → State → Except Fault State
  | 0, _, s => .ok s
  | n + 1, dsp, s =>
    match arrayAt s.dsp_list dsp with
    | .error e => .error e
    | .ok d =>
      clearLoop B cg n (dsp + 1)
        { issue s (.ChannelGroup_RemoveDSP cg d.dsp) with result := (reply B s).result }

/-- `CP_Sound_ClearGroupDSP`. -/
def CP_Sound_ClearGroupDSP (B : Backend) (H : Header) (s : State) (group : Int) :
    Except Fault State :=
  if CP_IsValidSoundGroup H group then
    match arrayAt s.channel_groups group with
    | .error e => .error e
    | .ok cg => clearLoop B cg CP_SOUND_DSP_MAX 0 s
  else .ok s

/-- `CP_Sound_RemoveGroupDSP`. -/
def CP_Sound_RemoveGroupDSP (B : Backend) (H : Header) (s : State) (group : Int)
    (dsp : Int) : Except Fault State :=
  if CP_IsValidSoundGroup H group then
    match arrayAt s.channel_groups group with
    | .error e => .error e
    | .ok cg =>
      match arrayAt s.dsp_list dsp with
      | .error e => .error e
      | .ok d =>
        .ok { issue s (.ChannelGroup_RemoveDSP cg d.dsp) with result := (reply B s).result }
  else .ok s

/-- `CP_Sound_SetDSPParameter`.  The value `(max - min) * value + min` is computed in `float`
arithmetic, each operation rounded. -/
def CP_Sound_SetDSPParameter (B : Backend) (s : State) (dsp : Int) (parameter : Int)
    (value : ℚ) : Except Fault State :=
  match arrayAt s.dsp_list dsp with
  | .error e => .error e
  | .ok d =>
    match arrayAt d.param parameter with
    | .error e => .error e
    | .ok p =>
      if p.index ≠ CP_SOUND_DSP_PARAM_NOTUSED then
        .ok { issue s (.DSP_SetParameterFloat d.dsp p.index
                (F32.add (F32.mul (F32.sub (F32.ofRat p.max) (F32.ofRat p.min)) (F32.ofRat value))
                  (F32.ofRat p.min)))
              with result := (reply B s).result }
      else .ok s

/-- `CP_Sound_ResetDSP`. -/
def CP_Sound_ResetDSP (B : Backend) (s : State) (dsp : Int) : Except Fault State :=
  match arrayAt s.dsp_list dsp with
  | .error e => .error e
  | .ok d => .ok { issue s (.DSP_Reset d.dsp) with result := (reply B s).result }

/-- The loop of `CP_Sound_ResetAllDSPs`, from slot `dsp` on: it returns at the first reset
that fails.  `n` is the number of slots left. -/
def resetLoop (B : Backend) : Nat → Nat → State → Except Fault State
  | 0, _, s => .ok s
  | n + 1, dsp, s =>
    match arrayAt s.dsp_list dsp with
    | .error e => .error e
    | .ok d =>
      let s1 : State := { issue s (.DSP_Reset d.dsp) with result := (reply B s).result }
      if s1.result ≠ FMOD_OK then .ok s1
      else resetLoop B n (dsp + 1) s1

/-- `CP_Sound_ResetAllDSPs`. -/
def CP_Sound_ResetAllDSPs (B : Backend) (s : State) : Except Fault State :=
  resetLoop B CP_SOUND_DSP_MAX 0 s

/-! ## Predicates used in the statements -/

/-- Every backend call recorded after the state `s0` and up to the state `s` succeeded. -/
def AllCallsOK (B : Backend) (s0 s : State) : Prop :=
  ∀ n, s0.calls.length ≤ n → n < s.calls.length → (B n).result = FMOD_OK

/-- The states reached from a `CP_Sound_Init` in which every backend call succeeds, by any
sequence of `CP_Sound_Load`, `CP_Sound_LoadMusic` and `CP_Sound_Free`. -/
inductive Reachable (B : Backend) (A : Allocator) (H : Header) : State → Prop
  | init (s0 s : State) :
      CP_Sound_Init B H s0 = .ok s → AllCallsOK B s0 s → Reachable B A H s
  | load (s s1 : State) (filepath : Option String) (a : Ptr) :
      Reachable B A H s → CP_Sound_Load B A H s filepath = .ok (a, s1) → Reachable B A H s1
  | loadMusic (s s1 : State) (filepath : Option String) (a : Ptr) :
      Reachable B A H s → CP_Sound_LoadMusic B A H s filepath = .ok (a, s1) →
      Reachable B A H s1
  | free (s s1 : State) (sound sound1 : Option Ptr) :
      Reachable B A H s → CP_Sound_Free s sound = .ok (sound1, s1) → Reachable B A H s1

/-- No two entries of the sound cache have equal file paths. -/
def UniquePaths (s : State) : Prop :=
  ∀ v, s.sound_vector = some v → (v.map (fun e => e.2.filepath)).Nodup

/-- The pointers held by the sound cache are non-null and pairwise distinct. -/
def DistinctPointers (s : State) : Prop :=
  ∀ v, s.sound_vector = some v → (∀ e ∈ v, e.1 ≠ NULL) ∧ (v.map Prod.fst).Nodup

/-- The asset `a` is resident: the sound vector is live and holds the pointer `a`. -/
def Resident (s : State) (a : Ptr) : Prop :=
  ∃ v st, s.sound_vector = some v ∧ (a, st) ∈ v

/-- The read `dsp_list[dsp].param[param]` of a parameter mapping. -/
def mappingAt (s : State) (dsp : Int) (param : Int) : Except Fault CP_Sound_DSP_Param_Struct :=
  match arrayAt s.dsp_list dsp with
  | .error e => .error e
  | .ok d => arrayAt d.param param

/-- The backend that stores what `B` stores, and answers every call with success. -/
def okify (B : Backend) : Backend :=
  fun n => { B n with result := FMOD_OK }

/-! ## Concrete environment used to exercise the statements -/

/-- A backend that accepts every call and hands out the handle `100 + n` at call `n`. -/
def okBackend : Backend :=
  fun n => ⟨FMOD_OK, 100 + n, 1⟩

/-- A backend that refuses every call. -/
def failBackend : Backend :=
  fun n => ⟨-1, 100 + n, 0⟩

/-- An allocator that never fails: it returns the address after the largest live one, and at
least 1000. -/
def bumpAllocator : Allocator where
  malloc := fun live _ => live.foldr max 999 + 1
  fresh := by
    intro live n _ hmem
    have hle : ∀ (l : List Ptr) (x : Ptr), x ∈ l → x ≤ l.foldr max 999 := by
      intro l
      induction l with
      | nil => intro x hx; cases hx
      | cons y ys ih =>
        intro x hx
        rcases List.mem_cons.mp hx with rfl | hx
        · exact le_max_left _ _
        · exact le_trans (ih x hx) (le_max_right _ _)
    have h := hle live _ hmem
    exact Nat.not_succ_le_self _ h

/-- Ten mixing groups, SFX and MUSIC the first two, and paths of at most 259 bytes. -/
def sampleHeader : Header :=
  { CP_SOUND_GROUP_MAX := 10, CP_SOUND_GROUP_SFX := 0, CP_SOUND_GROUP_MUSIC := 1,
    MAX_PATH := 260 }

/-- An initialised state with an empty sound cache. -/
def emptyCache : State :=
  { State.initial sampleHeader with _fmod_system := 100, sound_vector := some [] }

/-- The state after loading `a.wav` into the empty cache with the accepting backend. -/
def loadedOnce : State :=
  { emptyCache with
    sound_vector := some [(1000, ⟨"a.wav", 100⟩)]
    calls := [.System_CreateSound 100 "a.wav"] }

/-- The state after `CP_Sound_Init` at program start, with the accepting backend. -/
def initState : State :=
  { result := FMOD_OK
    _fmod_system := 100
    sound_vector := some []
    channel_groups := [102, 103, 104, 105, 106, 107, 108, 109, 110, 111]
    dsp_list :=
      [ ⟨112, [⟨0, 1, 22000⟩, ⟨1, 0, 127⟩]⟩,
        ⟨113, [⟨0, 100, 20000⟩, ⟨11, -80, 20⟩]⟩,
        ⟨114, [⟨0, 1, 5000⟩, ⟨1, 0, 100⟩]⟩,
        ⟨115, [⟨0, 0, 1⟩, ⟨-1, 0, 0⟩]⟩,
        ⟨116, [⟨2, 0, 20⟩, ⟨0, 0, 100⟩]⟩,
        ⟨117, [⟨0, 0.1, 20⟩, ⟨1, 0, 1⟩]⟩,
        ⟨118, [⟨2, 0, 100⟩, ⟨0, 0, 100⟩]⟩,
        ⟨119, [⟨0, 0.5, 2⟩, ⟨-1, 0, 0⟩]⟩ ]
    calls :=
      [ .System_Create, .System_Init 100 128,
        .System_CreateChannelGroup 100, .System_CreateChannelGroup 100,
        .System_CreateChannelGroup 100, .System_CreateChannelGroup 100,
        .System_CreateChannelGroup 100, .System_CreateChannelGroup 100,
        .System_CreateChannelGroup 100, .System_CreateChannelGroup 100,
        .System_CreateChannelGroup 100, .System_CreateChannelGroup 100,
        .System_CreateDSPByType 100 .ITLOWPASS, .System_CreateDSPByType 100 .SFXREVERB,
        .System_CreateDSPByType 100 .ECHO, .System_CreateDSPByType 100 .DISTORTION,
        .System_CreateDSPByType 100 .FLANGE, .System_CreateDSPByType 100 .TREMOLO,
        .System_CreateDSPByType 100 .CHORUS, .System_CreateDSPByType 100 .PITCHSHIFT ]
    stdout := [] }

/-- The state `initState` after `CP_Sound_Load` of `a.wav`. -/
def initLoaded : State :=
  { initState with
    sound_vector := some [(1000, ⟨"a.wav", 120⟩)]
    calls := initState.calls ++ [.System_CreateSound 100 "a.wav"] }

/-- A cache holding two sounds, `a.wav` and `b.ogg`. -/
def twoSounds : State :=
  { initState with
    sound_vector := some [(1000, ⟨"a.wav", 120⟩), (1001, ⟨"b.ogg", 121⟩)]
    calls := initState.calls ++
      [.System_CreateSound 100 "a.wav", .System_CreateStream 100 "b.ogg"] }

/-- The cache `twoSounds` after `CP_Sound_Free` of `a.wav`. -/
def oneSound : State :=
  { twoSounds with
    sound_vector := some [(1001, ⟨"b.ogg", 121⟩)]
    calls := twoSounds.calls ++ [.Sound_Release 120] }

/-- A backend that refuses the call number 4 and accepts every other call: in a
`CP_Sound_Init` at program start the system is created and initialised, two channel groups
are created and the creation of the third fails. -/
def groupFailBackend : Backend :=
  fun n => ⟨if n = 4 then -1 else FMOD_OK, 100 + n, 1⟩

/-- The state after `CP_Sound_Init` at program start with `groupFailBackend`. -/
def failedInit : State :=
  { result := FMOD_OK
    _fmod_system := NULL
    sound_vector := none
    channel_groups := [102, 103, 104, 0, 0, 0, 0, 0, 0, 0]
    dsp_list := List.replicate CP_SOUND_DSP_MAX ⟨NULL, List.replicate 2 ⟨0, 0, 0⟩⟩
    calls :=
      [ .System_Create, .System_Init 100 128,
        .System_CreateChannelGroup 100, .System_CreateChannelGroup 100,
        .System_CreateChannelGroup 100,
        .ChannelGroup_Stop 102, .ChannelGroup_Stop 103, .ChannelGroup_Stop 104,
        .ChannelGroup_Stop 0, .ChannelGroup_Stop 0, .ChannelGroup_Stop 0,
        .ChannelGroup_Stop 0, .ChannelGroup_Stop 0, .ChannelGroup_Stop 0,
        .ChannelGroup_Stop 0,
        .System_Release 100 ]
    stdout := [] }

/-- The initialised state after `CP_Sound_DSP_MapParameter(LOWPASS, PARAM1, 0, 0.3f, 1.4f)` and
`CP_Sound_DSP_MapParameter(LOWPASS, PARAM2, 1, -3e38f, 3e38f)`. -/
def remapped : State :=
  { initState with
    dsp_list := ⟨112, [⟨0, 0.3, 1.4⟩, ⟨1, -3e38, 3e38⟩]⟩ :: initState.dsp_list.tail }

/-! ## The sound cache -/

theorem checkLoop_push (P : String) (v : List Entry) (a : Ptr) (h : Ptr)
    (hnone : checkLoop P v = NULL) (ha : a ≠ NULL) :
    checkLoop P (vect_push v (a, ⟨P, h⟩)) = a := by
  induction v with
  | nil => simp [vect_push, checkLoop, ha]
  | cons e rest ih =>
    unfold checkLoop at hnone
    split at hnone
    · rename_i hc
      exact absurd hnone hc.1
    · rename_i hc
      simp only [vect_push, List.cons_append]
      unfold checkLoop
      rw [if_neg hc]
      exact ih hnone

/-- C1. Cache dedup: when `CP_Sound_LoadInternal` on a non-null path `P` returns a non-null
asset `a`, an immediately following `CP_Sound_LoadInternal` on `P`, with any streaming flag,
returns the same pointer `a` and leaves the whole state as it was: no backend call is
recorded and the cache has no new entry.  When `P` was not resident before the first call,
the first call recorded exactly one creation call for `P`, so the two calls together record
exactly one. -/
theorem C1_cache_dedup (B : Backend) (A : Allocator) (H : Header) (s s1 : State)
    (P : String) (f1 f2 : Bool) (a : Ptr)
    (hload : CP_Sound_LoadInternal B A H s (some P) f1 = .ok (a, s1)) (ha : a ≠ NULL) :
    CP_Sound_LoadInternal B A H s1 (some P) f2 = .ok (a, s1) ∧
      (CP_CheckIfSoundIsLoaded s P = .ok NULL →
        s1.calls = s.calls ++
          [if f1 then FMODCall.System_CreateStream s._fmod_system P
            else FMODCall.System_CreateSound s._fmod_system P]) := by
  unfold CP_Sound_LoadInternal at hload
  simp only [CP_CheckIfSoundIsLoaded] at hload ⊢
  cases hv : s.sound_vector with
  | none => simp [hv] at hload
  | some v =>
    simp only [hv] at hload
    by_cases hfound : checkLoop P v = NULL
    · simp only [hfound, ne_eq, not_true_eq_false, if_false] at hload
      split at hload
      · simp at hload; exact absurd hload.1.symm ha
      · split at hload
        · simp at hload; exact absurd hload.1.symm ha
        · split at hload
          · simp at hload
          · simp only [Except.ok.injEq, Prod.mk.injEq] at hload
            obtain ⟨h1, h2⟩ := hload
            subst h2
            subst h1
            refine ⟨?_, ?_⟩
            · rename_i hmalloc _ _
              simp only [CP_Sound_LoadInternal, CP_CheckIfSoundIsLoaded]
              rw [checkLoop_push P v _ _ hfound hmalloc]
              simp [hmalloc]
            · intro _
              simp [issue]
    · simp only [ne_eq, hfound, not_false_eq_true, if_true, Except.ok.injEq,
        Prod.mk.injEq] at hload
      obtain ⟨h1, h2⟩ := hload
      subst h2
      refine ⟨?_, ?_⟩
      · simp only [CP_Sound_LoadInternal, CP_CheckIfSoundIsLoaded, hv]
        simp [h1, ha]
      · intro hc
        simp only [Except.ok.injEq] at hc
        exact absurd hc hfound

/-- C1 at a concrete input: `a.wav` loaded into an empty cache, then loaded again as a
stream. -/
theorem C1_cache_dedup_witness :
    CP_Sound_LoadInternal okBackend bumpAllocator sampleHeader loadedOnce (some "a.wav") true
        = .ok (1000, loadedOnce) ∧
      (CP_CheckIfSoundIsLoaded emptyCache "a.wav" = .ok NULL →
        loadedOnce.calls = emptyCache.calls ++
          [if false = true then FMODCall.System_CreateStream emptyCache._fmod_system "a.wav"
            else FMODCall.System_CreateSound emptyCache._fmod_system "a.wav"]) :=
  C1_cache_dedup okBackend bumpAllocator sampleHeader emptyCache loadedOnce "a.wav" false true
    1000 (by rfl) (by decide)

/-! ## Frame lemmas: what the loops and the teardown leave alone -/

theorem groupLoop_sound_vector (B : Backend) (mk : Ptr → FMODCall) (n : Nat) :
    ∀ (index : Nat) (s s1 : State), groupLoop B mk n index s = .ok s1 →
      s1.sound_vector = s.sound_vector := by
  induction n with
  | zero =>
    intro index s s1 h
    simp only [groupLoop, Except.ok.injEq] at h
    rw [← h]
  | succ n ih =>
    intro index s s1 h
    unfold groupLoop at h
    split at h
    · cases h
    · exact (ih _ _ _ h).trans rfl

theorem createGroupsLoop_sound_vector (B : Backend) (n : Nat) :
    ∀ (index : Nat) (s s1 : State), createGroupsLoop B n index s = .ok s1 →
      s1.sound_vector = s.sound_vector := by
  induction n with
  | zero =>
    intro index s s1 h
    simp only [createGroupsLoop, Except.ok.injEq] at h
    rw [← h]
  | succ n ih =>
    intro index s s1 h
    unfold createGroupsLoop at h
    split at h
    · split at h
      · cases h
      · exact (ih _ _ _ h).trans rfl
    · simp only [Except.ok.injEq] at h
      rw [← h]

theorem Shutdown_sound_vector (B : Backend) (H : Header) (s s1 : State)
    (h : CP_Sound_Shutdown B H s = .ok s1) :
    s1 = s ∨ s1.sound_vector = none := by
  unfold CP_Sound_Shutdown at h
  split at h
  · split at h
    · cases h
    · split at h
      · cases h
      · simp only [Except.ok.injEq] at h
        right
        rw [← h]
        rfl
  · simp only [Except.ok.injEq] at h
    exact Or.inl h.symm

theorem MapParameter_sound_vector (s s1 : State) (dsp param index : Int) (min max : ℚ)
    (h : CP_Sound_DSP_MapParameter s dsp param index min max = .ok s1) :
    s1.sound_vector = s.sound_vector := by
  unfold CP_Sound_DSP_MapParameter at h
  split at h
  · cases h
  · split at h
    · cases h
    · split at h
      · cases h
      · simp only [Except.ok.injEq] at h
        rw [← h]

theorem initDSPs_sound_vector (B : Backend) (H : Header) (rows : List DSPRow) :
    ∀ (s s1 : State), initDSPs B H rows s = .ok s1 →
      s1.sound_vector = s.sound_vector ∨ s1.sound_vector = none := by
  induction rows with
  | nil =>
    intro s s1 h
    simp only [initDSPs, Except.ok.injEq] at h
    exact Or.inl (by rw [← h])
  | cons row rows ih =>
    intro s s1 h
    unfold initDSPs at h
    split at h
    · cases h
    · split at h
      · cases h
      · dsimp only at h
        split at h
        · rcases Shutdown_sound_vector _ _ _ _ h with h1 | h1
          · exact Or.inl (by rw [h1]; rfl)
          · exact Or.inr h1
        · split at h
          · cases h
          · rename_i s2 hm1
            split at h
            · cases h
            · rename_i s3 hm2
              have e2 := MapParameter_sound_vector _ _ _ _ _ _ _ hm1
              have e3 := MapParameter_sound_vector _ _ _ _ _ _ _ hm2
              rcases ih _ _ h with h1 | h1
              · exact Or.inl (by rw [h1, e3, e2]; rfl)
              · exact Or.inr h1

theorem Init_sound_vector (B : Backend) (H : Header) (s s1 : State)
    (h : CP_Sound_Init B H s = .ok s1) :
    s1.sound_vector = some [] ∨ s1.sound_vector = none := by
  unfold CP_Sound_Init at h
  dsimp only at h
  split at h
  · simp only [Except.ok.injEq] at h
    exact Or.inl (by rw [← h]; rfl)
  · split at h
    · simp only [Except.ok.injEq] at h
      exact Or.inl (by rw [← h]; rfl)
    · split at h
      · cases h
      · rename_i s3 hg
        have e3 := createGroupsLoop_sound_vector _ _ _ _ _ hg
        split at h
        · rcases Shutdown_sound_vector _ _ _ _ h with h1 | h1
          · exact Or.inl (by rw [h1, e3]; rfl)
          · exact Or.inr h1
        · rcases initDSPs_sound_vector _ _ _ _ _ h with h1 | h1
          · exact Or.inl (by rw [h1, e3]; rfl)
          · exact Or.inr h1

/-! ## The cache invariant -/

theorem checkLoop_null_not_mem (P : String) (v : List Entry)
    (hnn : ∀ e ∈ v, e.1 ≠ NULL) (hnone : checkLoop P v = NULL) :
    P ∉ v.map (fun e => e.2.filepath) := by
  induction v with
  | nil => simp
  | cons e rest ih =>
    unfold checkLoop at hnone
    have he : e.1 ≠ NULL := hnn e (List.mem_cons_self _ _)
    split at hnone
    · exact absurd hnone he
    · rename_i hc
      have hpe : P ≠ e.2.filepath := fun hp => hc ⟨he, hp⟩
      have hrest := ih (fun x hx => hnn x (List.mem_cons_of_mem _ hx)) hnone
      simp only [List.map_cons, List.mem_cons, not_or]
      exact ⟨hpe, hrest⟩

theorem LoadInternal_inv (B : Backend) (A : Allocator) (H : Header) (s s1 : State)
    (filepath : Option String) (f : Bool) (a : Ptr)
    (h : CP_Sound_LoadInternal B A H s filepath f = .ok (a, s1))
    (hu : UniquePaths s) (hd : DistinctPointers s) :
    UniquePaths s1 ∧ DistinctPointers s1 := by
  unfold CP_Sound_LoadInternal at h
  split at h
  · simp only [Except.ok.injEq, Prod.mk.injEq] at h
    rw [← h.2]
    exact ⟨hu, hd⟩
  · rename_i path
    split at h
    · cases h
    · rename_i found hfound
      split at h
      · simp only [Except.ok.injEq, Prod.mk.injEq] at h
        rw [← h.2]
        exact ⟨hu, hd⟩
      · rename_i hnull
        split at h
        · cases h
        · rename_i v hv
          dsimp only at h
          split at h
          · simp only [Except.ok.injEq, Prod.mk.injEq] at h
            rw [← h.2]
            exact ⟨hu, hd⟩
          · rename_i hmalloc
            split at h
            · simp only [Except.ok.injEq, Prod.mk.injEq] at h
              rw [← h.2]
              exact ⟨fun w hw => hu w hw, fun w hw => hd w hw⟩
            · split at h
              · cases h
              · simp only [Except.ok.injEq, Prod.mk.injEq] at h
                rw [← h.2]
                simp only [CP_CheckIfSoundIsLoaded, hv, Except.ok.injEq] at hfound
                have hnone : checkLoop path v = NULL := by
                  rw [hfound]
                  exact not_not.mp hnull
                obtain ⟨hnn, hnd⟩ := hd v hv
                have hpath := checkLoop_null_not_mem path v hnn hnone
                have hfresh := A.fresh (v.map Prod.fst) s.calls.length hmalloc
                refine ⟨?_, ?_⟩
                · intro w hw
                  simp only [Option.some.injEq] at hw
                  rw [← hw]
                  simp only [vect_push, List.map_append, List.map_cons, List.map_nil]
                  exact List.Nodup.append (hu v hv) (List.nodup_singleton _)
                    (List.disjoint_singleton.mpr hpath)
                · intro w hw
                  simp only [Option.some.injEq] at hw
                  rw [← hw]
                  refine ⟨?_, ?_⟩
                  · intro e he
                    simp only [vect_push, List.mem_append, List.mem_singleton] at he
                    rcases he with he | he
                    · exact hnn e he
                    · rw [he]
                      exact hmalloc
                  · simp only [vect_push, List.map_append, List.map_cons, List.map_nil]
                    exact List.Nodup.append hnd (List.nodup_singleton _)
                      (List.disjoint_singleton.mpr hfresh)

theorem Free_inv (s s1 : State) (sound sound1 : Option Ptr)
    (h : CP_Sound_Free s sound = .ok (sound1, s1))
    (hu : UniquePaths s) (hd : DistinctPointers s) :
    UniquePaths s1 ∧ DistinctPointers s1 := by
  unfold CP_Sound_Free at h
  split at h
  · simp only [Except.ok.injEq, Prod.mk.injEq] at h
    rw [← h.2]
    exact ⟨hu, hd⟩
  · split at h
    · simp only [Except.ok.injEq, Prod.mk.injEq] at h
      rw [← h.2]
      exact ⟨hu, hd⟩
    · split at h
      · cases h
      · rename_i v hv
        split at h
        · rename_i i e _
          simp only [Except.ok.injEq, Prod.mk.injEq] at h
          rw [← h.2]
          have hsub : (vect_rem v i).Sublist v := List.eraseIdx_sublist v i
          obtain ⟨hnn, hnd⟩ := hd v hv
          refine ⟨?_, ?_⟩
          · intro w hw
            simp only [Option.some.injEq] at hw
            rw [← hw]
            exact (hu v hv).sublist (hsub.map _)
          · intro w hw
            simp only [Option.some.injEq] at hw
            rw [← hw]
            exact ⟨fun e he => hnn e (hsub.subset he), hnd.sublist (hsub.map _)⟩
        · simp only [Except.ok.injEq, Prod.mk.injEq] at h
          rw [← h.2]
          exact ⟨hu, hd⟩

theorem Reachable_inv (B : Backend) (A : Allocator) (H : Header) (s : State)
    (h : Reachable B A H s) : UniquePaths s ∧ DistinctPointers s := by
  induction h with
  | init s0 s hinit _ =>
    rcases Init_sound_vector B H s0 s hinit with hv | hv
    · refine ⟨?_, ?_⟩
      · intro v hs
        rw [hv] at hs
        simp only [Option.some.injEq] at hs
        rw [← hs]
        exact List.nodup_nil
      · intro v hs
        rw [hv] at hs
        simp only [Option.some.injEq] at hs
        rw [← hs]
        exact ⟨fun e he => absurd he (List.not_mem_nil e), List.nodup_nil⟩
    · refine ⟨?_, ?_⟩
      · intro v hs
        rw [hv] at hs
        cases hs
      · intro v hs
        rw [hv] at hs
        cases hs
  | load s s1 filepath a _ hl ih => exact LoadInternal_inv B A H s s1 filepath false a hl ih.1 ih.2
  | loadMusic s s1 filepath a _ hl ih =>
    exact LoadInternal_inv B A H s s1 filepath true a hl ih.1 ih.2
  | free s s1 sound sound1 _ hf ih => exact Free_inv s s1 sound sound1 hf ih.1 ih.2

/-- C2. Cache uniqueness invariant: in every state reached from a `CP_Sound_Init` in which
every backend call succeeded, by any sequence of `CP_Sound_Load`, `CP_Sound_LoadMusic` and
`CP_Sound_Free` (whatever the backend and the allocator answer), no two entries of the sound
cache have equal file paths. -/
theorem C2_cache_unique_paths (B : Backend) (A : Allocator) (H : Header) (s : State)
    (hreach : Reachable B A H s) : UniquePaths s :=
  (Reachable_inv B A H s hreach).1

/-- The run of `CP_Sound_Init` at program start with the accepting backend ends in
`initState`. -/
theorem Init_initial_eq :
    CP_Sound_Init okBackend sampleHeader (State.initial sampleHeader) = .ok initState := by
  rfl

/-- C2 at a concrete run: `CP_Sound_Init` at program start, then `CP_Sound_Load` of `a.wav`
and `CP_Sound_LoadMusic` of `b.ogg`. -/
theorem C2_cache_unique_paths_witness : UniquePaths twoSounds :=
  C2_cache_unique_paths okBackend bumpAllocator sampleHeader twoSounds
    (Reachable.loadMusic initLoaded twoSounds (some "b.ogg") 1001
      (Reachable.load initState initLoaded (some "a.wav") 1000
        (Reachable.init (State.initial sampleHeader) initState (by rfl) (fun _ _ _ => rfl))
        (by rfl))
      (by rfl))

/-! ## Freeing -/

theorem findLoop_resident (a : Ptr) (st : CP_Sound_Struct) (v : List Entry) :
    ∀ (k : Nat), (a, st) ∈ v → (v.map Prod.fst).Nodup →
      ∃ i, findLoop a v k = some (k + i, (a, st)) ∧
        v.eraseIdx i = v.filter (fun e => decide (e.1 ≠ a)) := by
  induction v with
  | nil => intro k hmem; cases hmem
  | cons e rest ih =>
    intro k hmem hnd
    simp only [List.map_cons, List.nodup_cons] at hnd
    obtain ⟨hnot, hrest⟩ := hnd
    by_cases he : e.1 = a
    · have hea : e = (a, st) := by
        rcases List.mem_cons.mp hmem with h | h
        · exact h.symm
        · exfalso
          apply hnot
          rw [he]
          exact List.mem_map.mpr ⟨(a, st), h, rfl⟩
      refine ⟨0, ?_, ?_⟩
      · simp [findLoop, he, hea]
      · have hkeep : rest.filter (fun x => decide (x.1 ≠ a)) = rest := by
          apply List.filter_eq_self.mpr
          intro x hx
          have : x.1 ≠ a := by
            intro hxa
            apply hnot
            rw [he, ← hxa]
            exact List.mem_map.mpr ⟨x, hx, rfl⟩
          simpa using this
        simp only [List.eraseIdx_cons_zero]
        rw [List.filter_cons_of_neg (by simp [he]), hkeep]
    · have hmem1 : (a, st) ∈ rest := by
        rcases List.mem_cons.mp hmem with h | h
        · exact absurd (by rw [← h]) he
        · exact h
      obtain ⟨i, hfind, herase⟩ := ih (k + 1) hmem1 hrest
      refine ⟨i + 1, ?_, ?_⟩
      · simp only [findLoop, he, if_false]
        rw [hfind]
        simp only [Option.some.injEq, Prod.mk.injEq, and_true]
        omega
      · simp [List.filter_cons, he, herase]

theorem Free_resident (s : State) (v : List Entry) (a : Ptr) (st : CP_Sound_Struct)
    (hv : s.sound_vector = some v) (hmem : (a, st) ∈ v) (hd : DistinctPointers s) :
    CP_Sound_Free s (some a) = .ok (some NULL,
      { s with
        sound_vector := some (v.filter (fun e => decide (e.1 ≠ a)))
        calls := s.calls ++ [FMODCall.Sound_Release st.sound] }) := by
  obtain ⟨hnn, hnd⟩ := hd v hv
  have ha : a ≠ NULL := hnn (a, st) hmem
  obtain ⟨i, hfind, herase⟩ := findLoop_resident a st v 0 hmem hnd
  simp only [CP_Sound_Free, ha, if_false, hv, hfind, vect_rem, Nat.zero_add, herase, issue]

theorem Free_absent (s : State) (v : List Entry) (p : Ptr)
    (hv : s.sound_vector = some v) (hp : p ∉ v.map Prod.fst) :
    CP_Sound_Free s (some p) = .ok (some p, s) := by
  have hnone : ∀ (w : List Entry) (k : Nat), p ∉ w.map Prod.fst → findLoop p w k = none := by
    intro w
    induction w with
    | nil => intro k _; rfl
    | cons e rest ih =>
      intro k hk
      simp only [List.map_cons, List.mem_cons, not_or] at hk
      have he : e.1 ≠ p := fun h => hk.1 h.symm
      simp only [findLoop, he, if_false]
      exact ih (k + 1) hk.2
  unfold CP_Sound_Free
  by_cases h0 : p = NULL
  · simp [h0]
  · simp only [h0, if_false, hv, hnone v 0 hp]

theorem twoSounds_distinct : DistinctPointers twoSounds := by
  intro v hv
  simp only [twoSounds, Option.some.injEq] at hv
  rw [← hv]
  decide

/-- C3. Free of a resident asset: in a cache whose pointers are non-null and pairwise
distinct (as they are in every reachable state), for an asset `a` resident with struct `st`,
`CP_Sound_Free(&a)` returns with the caller's variable set to `NULL`, records exactly one
backend call, `FMOD_Sound_Release` of `st.sound`, and leaves as cache exactly the entries
whose pointer is not `a` (whatever their paths), in the same order and each with its path and
backend sound unchanged; no other static changes. -/
theorem C3_free_resident (s : State) (v : List Entry) (a : Ptr) (st : CP_Sound_Struct)
    (hv : s.sound_vector = some v) (hmem : (a, st) ∈ v) (hd : DistinctPointers s) :
    CP_Sound_Free s (some a) = .ok (some NULL,
      { s with
        sound_vector := some (v.filter (fun e => decide (e.1 ≠ a)))
        calls := s.calls ++ [FMODCall.Sound_Release st.sound] }) :=
  Free_resident s v a st hv hmem hd

/-- C3 at a concrete input: `a.wav` freed from a cache holding `a.wav` and `b.ogg`. -/
theorem C3_free_resident_witness :
    CP_Sound_Free twoSounds (some 1000) = .ok (some NULL,
      { twoSounds with
        sound_vector := some [(1001, ⟨"b.ogg", 121⟩)]
        calls := twoSounds.calls ++ [FMODCall.Sound_Release 120] }) :=
  C3_free_resident twoSounds [(1000, ⟨"a.wav", 120⟩), (1001, ⟨"b.ogg", 121⟩)] 1000
    ⟨"a.wav", 120⟩ rfl (by decide) twoSounds_distinct

/-- C4, as stated, fails: `a.wav` is freed from a cache holding `a.wav` and `b.ogg`, which
sets the caller's variable to `NULL`; the second `CP_Sound_Free` on that variable, and a
`CP_Sound_Free` on a stale copy of the pointer, both return normally and leave the variable
and every static (the error code `result`, the standard output, the trace) as they were:
nothing tells them from a success, so no NotFound is signalled. -/
theorem C4_free_twice_counterexample :
    CP_Sound_Free twoSounds (some 1000) = .ok (some NULL, oneSound) ∧
      CP_Sound_Free oneSound (some NULL) = .ok (some NULL, oneSound) ∧
      CP_Sound_Free oneSound (some 1000) = .ok (some 1000, oneSound) :=
  ⟨rfl, rfl, rfl⟩

/-- C4, amended. In a state whose sound vector is live and holds distinct pointers: after
`CP_Sound_Free(&a)` on a resident asset the caller's variable is `NULL`, and a second
`CP_Sound_Free` on that variable returns normally, records no backend call and changes
nothing; and `CP_Sound_Free` on any pointer that is not in the cache returns normally,
records no backend call and changes neither the statics nor the caller's variable. -/
theorem C4_free_not_resident (s : State) (v : List Entry) (hv : s.sound_vector = some v)
    (hd : DistinctPointers s) :
    (∀ a st, (a, st) ∈ v →
      ∃ s1, CP_Sound_Free s (some a) = .ok (some NULL, s1) ∧
        s1.calls = s.calls ++ [FMODCall.Sound_Release st.sound] ∧
        CP_Sound_Free s1 (some NULL) = .ok (some NULL, s1)) ∧
      (∀ p, p ∉ v.map Prod.fst → CP_Sound_Free s (some p) = .ok (some p, s)) := by
  refine ⟨?_, ?_⟩
  · intro a st hmem
    exact ⟨_, Free_resident s v a st hv hmem hd, rfl, rfl⟩
  · intro p hp
    exact Free_absent s v p hv hp

/-- C4 (amended) at a concrete input: the cache holding `a.wav` and `b.ogg`. -/
theorem C4_free_not_resident_witness :
    (∀ a st, (a, st) ∈ [((1000 : Ptr), (⟨"a.wav", 120⟩ : CP_Sound_Struct)),
        (1001, ⟨"b.ogg", 121⟩)] →
      ∃ s1, CP_Sound_Free twoSounds (some a) = .ok (some NULL, s1) ∧
        s1.calls = twoSounds.calls ++ [FMODCall.Sound_Release st.sound] ∧
        CP_Sound_Free s1 (some NULL) = .ok (some NULL, s1)) ∧
      (∀ p, p ∉ [((1000 : Ptr), (⟨"a.wav", 120⟩ : CP_Sound_Struct)),
          (1001, ⟨"b.ogg", 121⟩)].map Prod.fst →
        CP_Sound_Free twoSounds (some p) = .ok (some p, twoSounds)) :=
  C4_free_not_resident twoSounds [(1000, ⟨"a.wav", 120⟩), (1001, ⟨"b.ogg", 121⟩)] rfl
    twoSounds_distinct

/-! ## Loading -/

theorem checkLoop_not_resident (P : String) (v : List Entry)
    (hnot : P ∉ v.map (fun e => e.2.filepath)) : checkLoop P v = NULL := by
  induction v with
  | nil => rfl
  | cons e rest ih =>
    simp only [List.map_cons, List.mem_cons, not_or] at hnot
    unfold checkLoop
    rw [if_neg (fun hc => hnot.1 hc.2)]
    exact ih hnot.2

/-- C5. Load failure is atomic: for a path `P` that no entry of the (live) cache carries,
when the backend answers the creation call with a failure, `CP_Sound_LoadInternal` returns
`NULL` and the cache is exactly as before: if `malloc` failed nothing at all changed, and
otherwise the one creation call was recorded (create-stream when `streamFromDisc`,
create-sound otherwise) and its result code stored in `result`, every other static, the
sound vector among them, unchanged.  `CP_Sound_Load` is the case without streaming.  A null
path returns `NULL` and changes nothing. -/
theorem C5_load_failure_atomic (B : Backend) (A : Allocator) (H : Header) (s : State)
    (v : List Entry) (P : String) (streamFromDisc : Bool)
    (hv : s.sound_vector = some v) (hnot : P ∉ v.map (fun e => e.2.filepath))
    (hfail : (reply B s).result ≠ FMOD_OK) :
    CP_Sound_LoadInternal B A H s (some P) streamFromDisc =
        .ok (NULL,
          if A.malloc (v.map Prod.fst) s.calls.length = NULL then s
          else
            { s with
              calls := s.calls ++
                [if streamFromDisc then FMODCall.System_CreateStream s._fmod_system P
                  else FMODCall.System_CreateSound s._fmod_system P]
              result := (reply B s).result }) ∧
      CP_Sound_Load B A H s (some P) =
        .ok (NULL,
          if A.malloc (v.map Prod.fst) s.calls.length = NULL then s
          else
            { s with
              calls := s.calls ++ [FMODCall.System_CreateSound s._fmod_system P]
              result := (reply B s).result }) ∧
      CP_Sound_LoadInternal B A H s none streamFromDisc = .ok (NULL, s) ∧
      CP_Sound_Load B A H s none = .ok (NULL, s) := by
  have hnone := checkLoop_not_resident P v hnot
  have key : ∀ f : Bool, CP_Sound_LoadInternal B A H s (some P) f =
      .ok (NULL,
        if A.malloc (v.map Prod.fst) s.calls.length = NULL then s
        else
          { s with
            calls := s.calls ++
              [if f then FMODCall.System_CreateStream s._fmod_system P
                else FMODCall.System_CreateSound s._fmod_system P]
            result := (reply B s).result }) := by
    intro f
    by_cases hm : A.malloc (v.map Prod.fst) s.calls.length = NULL
    · simp [CP_Sound_LoadInternal, CP_CheckIfSoundIsLoaded, hv, hnone, hm]
    · simp only [CP_Sound_LoadInternal, CP_CheckIfSoundIsLoaded, hv, hnone, hm, ne_eq,
        not_true_eq_false, if_false, hfail, not_false_eq_true, if_true, issue]
  refine ⟨key streamFromDisc, ?_, rfl, rfl⟩
  have h := key false
  simpa [CP_Sound_Load] using h

/-- C5 at a concrete input: `b.ogg` loaded as a stream into the cache holding `a.wav`, with
the backend that refuses every call: the call is recorded, the cache still holds `a.wav`
alone. -/
theorem C5_load_failure_atomic_witness :
    CP_Sound_LoadInternal failBackend bumpAllocator sampleHeader loadedOnce (some "b.ogg") true
        = .ok (NULL,
          { loadedOnce with
            calls := loadedOnce.calls ++ [FMODCall.System_CreateStream 100 "b.ogg"]
            result := -1 }) ∧
      CP_Sound_Load failBackend bumpAllocator sampleHeader loadedOnce (some "b.ogg")
        = .ok (NULL,
          { loadedOnce with
            calls := loadedOnce.calls ++ [FMODCall.System_CreateSound 100 "b.ogg"]
            result := -1 }) ∧
      CP_Sound_LoadInternal failBackend bumpAllocator sampleHeader loadedOnce none true
        = .ok (NULL, loadedOnce) ∧
      CP_Sound_Load failBackend bumpAllocator sampleHeader loadedOnce none
        = .ok (NULL, loadedOnce) :=
  C5_load_failure_atomic failBackend bumpAllocator sampleHeader loadedOnce
    [(1000, ⟨"a.wav", 100⟩)] "b.ogg" true rfl (by decide) (by decide)

/-! ## The trace only grows -/

theorem groupLoop_calls_le (B : Backend) (mk : Ptr → FMODCall) (n : Nat) :
    ∀ (index : Nat) (s s1 : State), groupLoop B mk n index s = .ok s1 →
      s.calls.length ≤ s1.calls.length := by
  induction n with
  | zero =>
    intro index s s1 h
    simp only [groupLoop, Except.ok.injEq] at h
    rw [← h]
  | succ n ih =>
    intro index s s1 h
    unfold groupLoop at h
    split at h
    · cases h
    · have := ih _ _ _ h
      simp only [issue, List.length_append, List.length_singleton] at this
      omega

theorem releaseLoop_calls_le (v : List Entry) :
    ∀ (s : State), s.calls.length ≤ (releaseLoop v s).calls.length := by
  induction v with
  | nil => intro s; exact le_refl _
  | cons e rest ih =>
    intro s
    have h1 := ih (issue s (.Sound_Release e.2.sound))
    have h2 : s.calls.length ≤ (issue s (.Sound_Release e.2.sound)).calls.length := by
      simp [issue]
    exact le_trans h2 h1

theorem Shutdown_calls_le (B : Backend) (H : Header) (s s1 : State)
    (h : CP_Sound_Shutdown B H s = .ok s1) : s.calls.length ≤ s1.calls.length := by
  unfold CP_Sound_Shutdown at h
  split at h
  · split at h
    · cases h
    · rename_i t ht
      split at h
      · cases h
      · rename_i v _
        simp only [Except.ok.injEq] at h
        rw [← h]
        have h1 := groupLoop_calls_le _ _ _ _ _ _ ht
        have h2 := releaseLoop_calls_le v t
        simp only [issue, List.length_append, List.length_singleton]
        omega
  · simp only [Except.ok.injEq] at h
    rw [← h]

theorem createGroupsLoop_frame (B : Backend) (n : Nat) :
    ∀ (index : Nat) (s s1 : State), createGroupsLoop B n index s = .ok s1 →
      s1.dsp_list = s.dsp_list ∧ s1._fmod_system = s._fmod_system ∧
        s.calls.length ≤ s1.calls.length := by
  induction n with
  | zero =>
    intro index s s1 h
    simp only [createGroupsLoop, Except.ok.injEq] at h
    rw [← h]
    exact ⟨rfl, rfl, le_refl _⟩
  | succ n ih =>
    intro index s s1 h
    unfold createGroupsLoop at h
    split at h
    · split at h
      · cases h
      · obtain ⟨h1, h2, h3⟩ := ih _ _ _ h
        simp only [issue, List.length_append, List.length_singleton] at h1 h2 h3
        exact ⟨h1, h2, by omega⟩
    · simp only [Except.ok.injEq] at h
      rw [← h]
      exact ⟨rfl, rfl, le_refl _⟩

theorem createGroupsLoop_failed (B : Backend) (n : Nat) :
    ∀ (index : Nat) (s s1 : State), createGroupsLoop B n index s = .ok s1 →
      s.result = FMOD_OK → s1.result ≠ FMOD_OK →
      ∃ k, s.calls.length ≤ k ∧ k < s1.calls.length ∧ (B k).result ≠ FMOD_OK := by
  induction n with
  | zero =>
    intro index s s1 h hs h1
    simp only [createGroupsLoop, Except.ok.injEq] at h
    rw [← h] at h1
    exact absurd hs h1
  | succ n ih =>
    intro index s s1 h hs h1
    unfold createGroupsLoop at h
    rw [if_pos hs] at h
    split at h
    · cases h
    · by_cases hr : (reply B s).result = FMOD_OK
      · obtain ⟨k, hk1, hk2, hk3⟩ := ih _ _ _ h hr h1
        simp only [issue, List.length_append, List.length_singleton] at hk1
        exact ⟨k, by omega, hk2, hk3⟩
      · have hle := (createGroupsLoop_frame B n _ _ _ h).2.2
        simp only [issue, List.length_append, List.length_singleton] at hle
        exact ⟨s.calls.length, le_refl _, by omega, hr⟩

theorem MapParameter_eq (s s1 : State) (dsp param index : Int) (min max : ℚ)
    (h : CP_Sound_DSP_MapParameter s dsp param index min max = .ok s1) :
    s1 = { s with dsp_list := s1.dsp_list } := by
  unfold CP_Sound_DSP_MapParameter at h
  split at h
  · cases h
  · split at h
    · cases h
    · split at h
      · cases h
      · simp only [Except.ok.injEq] at h
        rw [← h]

/-- One block of the DSP part of `CP_Sound_Init`, when every call recorded up to the final
state succeeded: the creation succeeded, both mappings were written and the remaining
blocks ran from there. -/
theorem initDSPs_cons_ok (B : Backend) (H : Header) (row : DSPRow) (rows : List DSPRow)
    (s s1 : State) (h : initDSPs B H (row :: rows) s = .ok s1)
    (hok : ∀ n, s.calls.length ≤ n → n < s1.calls.length → (B n).result = FMOD_OK) :
    ∃ d l s2 s3,
      arrayAt s.dsp_list row.dsp = .ok d ∧
      arraySet s.dsp_list row.dsp { d with dsp := (reply B s).handle } = .ok l ∧
      CP_Sound_DSP_MapParameter
        { issue s (.System_CreateDSPByType s._fmod_system row.type) with
          result := (reply B s).result
          dsp_list := l }
        row.dsp CP_SOUND_DSP_PARAM1 row.param1.1 row.param1.2.1 row.param1.2.2 = .ok s2 ∧
      CP_Sound_DSP_MapParameter s2 row.dsp CP_SOUND_DSP_PARAM2
        row.param2.1 row.param2.2.1 row.param2.2.2 = .ok s3 ∧
      initDSPs B H rows s3 = .ok s1 ∧
      s3.calls.length = s.calls.length + 1 ∧
      s3._fmod_system = s._fmod_system := by
  unfold initDSPs at h
  split at h
  · cases h
  · rename_i d hd
    split at h
    · cases h
    · rename_i l hl
      dsimp only at h
      split at h
      · rename_i hfail
        exfalso
        have hle := Shutdown_calls_le _ _ _ _ h
        simp only [issue, List.length_append, List.length_singleton] at hle
        exact hfail (hok s.calls.length (le_refl _) (by omega))
      · split at h
        · cases h
        · rename_i s2 hm1
          split at h
          · cases h
          · rename_i s3 hm2
            have e2 := MapParameter_eq _ _ _ _ _ _ _ hm1
            have e3 := MapParameter_eq _ _ _ _ _ _ _ hm2
            refine ⟨d, l, s2, s3, hd, hl, hm1, hm2, h, ?_, ?_⟩
            · rw [e3, e2]
              simp [issue]
            · rw [e3, e2]
              rfl

theorem initDSPs_calls_le (B : Backend) (H : Header) (rows : List DSPRow) :
    ∀ (s s1 : State), initDSPs B H rows s = .ok s1 → s.calls.length ≤ s1.calls.length := by
  induction rows with
  | nil =>
    intro s s1 h
    simp only [initDSPs, Except.ok.injEq] at h
    rw [← h]
  | cons row rows ih =>
    intro s s1 h
    unfold initDSPs at h
    split at h
    · cases h
    · split at h
      · cases h
      · dsimp only at h
        split at h
        · have hle := Shutdown_calls_le _ _ _ _ h
          simp only [issue, List.length_append, List.length_singleton] at hle
          omega
        · split at h
          · cases h
          · rename_i s2 hm1
            split at h
            · cases h
            · rename_i s3 hm2
              have e2 := MapParameter_eq _ _ _ _ _ _ _ hm1
              have e3 := MapParameter_eq _ _ _ _ _ _ _ hm2
              have hle := ih _ _ h
              rw [e3, e2] at hle
              simp only [issue, List.length_append, List.length_singleton] at hle
              omega

/-- When every call recorded during the DSP part of `CP_Sound_Init` succeeded, the run is the
run against the backend that always succeeds. -/
theorem initDSPs_okify (B : Backend) (H : Header) (rows : List DSPRow) :
    ∀ (s s1 : State), initDSPs B H rows s = .ok s1 →
      (∀ n, s.calls.length ≤ n → n < s1.calls.length → (B n).result = FMOD_OK) →
      initDSPs (okify B) H rows s = .ok s1 := by
  induction rows with
  | nil =>
    intro s s1 h _
    simpa [initDSPs] using h
  | cons row rows ih =>
    intro s s1 h hok
    obtain ⟨d, l, s2, s3, hd, hl, hm1, hm2, hrest, hlen, _⟩ :=
      initDSPs_cons_ok B H row rows s s1 h hok
    have hgrow := initDSPs_calls_le B H rows s3 s1 hrest
    have hr : (reply B s).result = FMOD_OK := hok s.calls.length (le_refl _) (by omega)
    have hrest1 := ih s3 s1 hrest (fun n h1 h2 => hok n (by omega) h2)
    have hh : (reply (okify B) s).handle = (reply B s).handle := rfl
    have hres : (reply (okify B) s).result = (reply B s).result := by
      rw [hr]
      rfl
    unfold initDSPs
    simp only [hd, hh, hl, hres, hr, ne_eq, not_true_eq_false, if_false]
    rw [hr] at hm1
    simp only [hm1, hm2]
    exact hrest1

theorem list_length_two {α : Type} (l : List α) (h : l.length = 2) : ∃ a b, l = [a, b] := by
  match l, h with
  | [a, b], _ => exact ⟨a, b, rfl⟩

theorem list_length_eight {α : Type} (l : List α) (h : l.length = 8) :
    ∃ a b c d e f g i, l = [a, b, c, d, e, f, g, i] := by
  match l, h with
  | [a, b, c, d, e, f, g, i], _ => exact ⟨a, b, c, d, e, f, g, i, rfl⟩

/-- The DSP part of `CP_Sound_Init` against a backend that always succeeds, from statics whose
DSP arrays have their declared sizes: eight creation calls, and the table. -/
theorem initDSPs_okify_eval (B : Backend) (H : Header) (s : State)
    (h8 : s.dsp_list.length = CP_SOUND_DSP_MAX) (h2 : ∀ d ∈ s.dsp_list, d.param.length = 2) :
    initDSPs (okify B) H dspRows s = .ok
      { s with
        result := FMOD_OK
        dsp_list :=
          [ ⟨(B s.calls.length).handle, [⟨0, 1, 22000⟩, ⟨1, 0, 127⟩]⟩,
            ⟨(B (s.calls.length + 1)).handle, [⟨0, 100, 20000⟩, ⟨11, -80, 20⟩]⟩,
            ⟨(B (s.calls.length + 2)).handle, [⟨0, 1, 5000⟩, ⟨1, 0, 100⟩]⟩,
            ⟨(B (s.calls.length + 3)).handle, [⟨0, 0, 1⟩, ⟨-1, 0, 0⟩]⟩,
            ⟨(B (s.calls.length + 4)).handle, [⟨2, 0, 20⟩, ⟨0, 0, 100⟩]⟩,
            ⟨(B (s.calls.length + 5)).handle, [⟨0, 0.1, 20⟩, ⟨1, 0, 1⟩]⟩,
            ⟨(B (s.calls.length + 6)).handle, [⟨2, 0, 100⟩, ⟨0, 0, 100⟩]⟩,
            ⟨(B (s.calls.length + 7)).handle, [⟨0, 0.5, 2⟩, ⟨-1, 0, 0⟩]⟩ ]
        calls := s.calls ++
          [ .System_CreateDSPByType s._fmod_system .ITLOWPASS,
            .System_CreateDSPByType s._fmod_system .SFXREVERB,
            .System_CreateDSPByType s._fmod_system .ECHO,
            .System_CreateDSPByType s._fmod_system .DISTORTION,
            .System_CreateDSPByType s._fmod_system .FLANGE,
            .System_CreateDSPByType s._fmod_system .TREMOLO,
            .System_CreateDSPByType s._fmod_system .CHORUS,
            .System_CreateDSPByType s._fmod_system .PITCHSHIFT ] } := by
  obtain ⟨d0, d1, d2, d3, d4, d5, d6, d7, hl⟩ := list_length_eight s.dsp_list h8
  rw [hl] at h2
  obtain ⟨a0, b0, e0⟩ := list_length_two d0.param (h2 d0 (by simp))
  obtain ⟨a1, b1, e1⟩ := list_length_two d1.param (h2 d1 (by simp))
  obtain ⟨a2, b2, e2⟩ := list_length_two d2.param (h2 d2 (by simp))
  obtain ⟨a3, b3, e3⟩ := list_length_two d3.param (h2 d3 (by simp))
  obtain ⟨a4, b4, e4⟩ := list_length_two d4.param (h2 d4 (by simp))
  obtain ⟨a5, b5, e5⟩ := list_length_two d5.param (h2 d5 (by simp))
  obtain ⟨a6, b6, e6⟩ := list_length_two d6.param (h2 d6 (by simp))
  obtain ⟨a7, b7, e7⟩ := list_length_two d7.param (h2 d7 (by simp))
  simp [initDSPs, dspRows, CP_Sound_DSP_MapParameter, arrayAt, arraySet, reply, issue, okify,
    hl, e0, e1, e2, e3, e4, e5, e6, e7, CP_SOUND_DSP_PARAM1, CP_SOUND_DSP_PARAM2,
    CP_SOUND_DSP_LOWPASS, CP_SOUND_DSP_REVERB, CP_SOUND_DSP_ECHO, CP_SOUND_DSP_DISTORT,
    CP_SOUND_DSP_FLANGE, CP_SOUND_DSP_TREMOLO, CP_SOUND_DSP_CHORUS, CP_SOUND_DSP_PITCH,
    CP_SOUND_DSP_PARAM_NOTUSED]

/-- After a `CP_Sound_Init` in which every backend call succeeded, from statics whose arrays
have their declared sizes, the DSP registry is the table of the source, each slot with the
handle the backend stored for it. -/
theorem Init_ok_dsp_list (B : Backend) (H : Header) (s0 s : State) (hwf : s0.WF H)
    (hinit : CP_Sound_Init B H s0 = .ok s) (hok : AllCallsOK B s0 s) :
    ∃ n, s.dsp_list =
      [ ⟨(B n).handle, [⟨0, 1, 22000⟩, ⟨1, 0, 127⟩]⟩,
        ⟨(B (n + 1)).handle, [⟨0, 100, 20000⟩, ⟨11, -80, 20⟩]⟩,
        ⟨(B (n + 2)).handle, [⟨0, 1, 5000⟩, ⟨1, 0, 100⟩]⟩,
        ⟨(B (n + 3)).handle, [⟨0, 0, 1⟩, ⟨-1, 0, 0⟩]⟩,
        ⟨(B (n + 4)).handle, [⟨2, 0, 20⟩, ⟨0, 0, 100⟩]⟩,
        ⟨(B (n + 5)).handle, [⟨0, 0.1, 20⟩, ⟨1, 0, 1⟩]⟩,
        ⟨(B (n + 6)).handle, [⟨2, 0, 100⟩, ⟨0, 0, 100⟩]⟩,
        ⟨(B (n + 7)).handle, [⟨0, 0.5, 2⟩, ⟨-1, 0, 0⟩]⟩ ] := by
  obtain ⟨_, h8, h2⟩ := hwf
  unfold CP_Sound_Init at hinit
  dsimp only at hinit
  split at hinit
  · rename_i hfail
    exfalso
    simp only [Except.ok.injEq] at hinit
    apply hfail
    apply hok s0.calls.length (le_refl _)
    rw [← hinit]
    simp [issue]
  · split at hinit
    · rename_i hfail
      exfalso
      simp only [Except.ok.injEq] at hinit
      simp only [reply, issue, List.length_append, List.length_singleton] at hfail
      apply hfail
      apply hok (s0.calls.length + 1) (by omega)
      rw [← hinit]
      simp [issue]
    · rename_i hcreate hsysinit
      split at hinit
      · cases hinit
      · rename_i s3 hg
        obtain ⟨hdsp, _, hgrow⟩ := createGroupsLoop_frame _ _ _ _ _ hg
        simp only [issue, List.length_append, List.length_singleton] at hgrow
        split at hinit
        · rename_i hfail
          exfalso
          obtain ⟨k, hk1, hk2, hk3⟩ :=
            createGroupsLoop_failed _ _ _ _ _ hg (not_not.mp hsysinit) hfail
          have hle := Shutdown_calls_le _ _ _ _ hinit
          simp only [issue, List.length_append, List.length_singleton] at hk1
          exact hk3 (hok k (by omega) (by omega))
        · have hgrow2 := initDSPs_calls_le _ _ _ _ _ hinit
          have hrun := initDSPs_okify B H dspRows s3 s hinit
            (fun n h1 h2 => hok n (by omega) h2)
          have h8' : s3.dsp_list.length = CP_SOUND_DSP_MAX := by rw [hdsp]; exact h8
          have h2' : ∀ d ∈ s3.dsp_list, d.param.length = 2 := by rw [hdsp]; exact h2
          rw [initDSPs_okify_eval B H s3 h8' h2'] at hrun
          simp only [Except.ok.injEq] at hrun
          exact ⟨s3.calls.length, by rw [← hrun]⟩

/-! ## The DSP registry -/

theorem SetDSPParameter_used (B : Backend) (s : State) (dsp parameter : Int) (value : ℚ)
    (d : CP_Sound_DSP_Struct) (p : CP_Sound_DSP_Param_Struct)
    (hd : arrayAt s.dsp_list dsp = .ok d) (hp : arrayAt d.param parameter = .ok p)
    (hused : p.index ≠ CP_SOUND_DSP_PARAM_NOTUSED) :
    CP_Sound_SetDSPParameter B s dsp parameter value = .ok
      { s with
        calls := s.calls ++
          [FMODCall.DSP_SetParameterFloat d.dsp p.index
            (F32.add (F32.mul (F32.sub (F32.ofRat p.max) (F32.ofRat p.min)) (F32.ofRat value))
              (F32.ofRat p.min))]
        result := (reply B s).result } := by
  simp only [CP_Sound_SetDSPParameter, hd, hp, hused, ne_eq, not_false_eq_true, if_true, issue]

theorem arrayAt_mem {α : Type} (a : List α) (i : Int) (x : α) (h : arrayAt a i = .ok x) :
    x ∈ a := by
  unfold arrayAt at h
  split at h
  · cases h
  · split at h
    · rename_i y hy
      simp only [Except.ok.injEq] at h
      rw [← h]
      exact List.getElem?_mem hy
    · cases h

/-- At each used mapping of the table of `CP_Sound_Init`, the `float` computation gives the
stored `min` for the value 0 and the stored `max` for the value 1. -/
theorem table_endpoints :
    ∀ p ∈ ([⟨0, 1, 22000⟩, ⟨1, 0, 127⟩, ⟨0, 100, 20000⟩, ⟨11, -80, 20⟩, ⟨0, 1, 5000⟩,
        ⟨1, 0, 100⟩, ⟨0, 0, 1⟩, ⟨2, 0, 20⟩, ⟨0, 0, 100⟩, ⟨0, 0.1, 20⟩, ⟨1, 0, 1⟩,
        ⟨2, 0, 100⟩, ⟨0, 0.5, 2⟩] : List CP_Sound_DSP_Param_Struct),
      F32.add (F32.mul (F32.sub (F32.ofRat p.max) (F32.ofRat p.min)) (F32.ofRat 0))
          (F32.ofRat p.min) = F32.ofRat p.min ∧
        F32.add (F32.mul (F32.sub (F32.ofRat p.max) (F32.ofRat p.min)) (F32.ofRat 1))
          (F32.ofRat p.min) = F32.ofRat p.max := by
  decide!

theorem MapParameter_then_read (s s1 : State) (dsp param index : Int) (min max : ℚ)
    (h : CP_Sound_DSP_MapParameter s dsp param index min max = .ok s1) :
    ∃ d d1, arrayAt s.dsp_list dsp = .ok d ∧ arrayAt s1.dsp_list dsp = .ok d1 ∧
      d1.dsp = d.dsp ∧ arrayAt d1.param param = .ok ⟨index, min, max⟩ ∧
      s1 = { s with dsp_list := s1.dsp_list } := by
  have hset : ∀ {α : Type} (a l : List α) (i : Int) (x : α), arraySet a i x = .ok l →
      arrayAt l i = .ok x := by
    intro α a l i x hs
    unfold arraySet at hs
    split at hs
    · cases hs
    · rename_i hi
      split at hs
      · rename_i hlt
        simp only [Except.ok.injEq] at hs
        rw [← hs]
        simp [arrayAt, hi, hlt]
      · cases hs
  have heq := MapParameter_eq s s1 dsp param index min max h
  unfold CP_Sound_DSP_MapParameter at h
  split at h
  · cases h
  · rename_i d hd
    split at h
    · cases h
    · rename_i param1 hp1
      split at h
      · cases h
      · rename_i l hl
        simp only [Except.ok.injEq] at h
        refine ⟨d, { d with param := param1 }, hd, ?_, rfl, hset _ _ _ _ hp1, heq⟩
        rw [← h]
        exact hset _ _ _ _ hl

/-- C6, as stated, fails.  In the initialised registry, setting the lowpass cutoff (mapping
0, 1, 22000) to the `float` 0.1f = 13421773 / 134217728 sends 2200.900146484375, which is not
`min + (max - min) * v` = 295399801955 / 134217728.  With the mapping 0.3f, 1.4f written by
`CP_Sound_DSP_MapParameter`, the value 1 sends 5872025 / 4194304 = 1.39999985..., which is
not the stored `max` 1.4f = 11744051 / 8388608.  With the mapping -3e38f, 3e38f the
difference overflows and the value 0 sends a NaN, not `min`. -/
theorem C6_remap_counterexample :
    CP_Sound_SetDSPParameter okBackend initState CP_SOUND_DSP_LOWPASS CP_SOUND_DSP_PARAM1
        (13421773 / 134217728)
      = .ok
        { initState with
          calls := initState.calls ++
            [FMODCall.DSP_SetParameterFloat 112 0 (.finite 2200.900146484375)]
          result := FMOD_OK } ∧
      (2200.900146484375 : ℚ) ≠ 1 + (22000 - 1) * (13421773 / 134217728) ∧
      (CP_Sound_DSP_MapParameter initState CP_SOUND_DSP_LOWPASS CP_SOUND_DSP_PARAM1 0 0.3
          1.4).bind
          (fun t => CP_Sound_DSP_MapParameter t CP_SOUND_DSP_LOWPASS CP_SOUND_DSP_PARAM2 1
            (-3e38) 3e38)
        = .ok remapped ∧
      CP_Sound_SetDSPParameter okBackend remapped CP_SOUND_DSP_LOWPASS CP_SOUND_DSP_PARAM1 1
        = .ok
          { remapped with
            calls := remapped.calls ++
              [FMODCall.DSP_SetParameterFloat 112 0 (.finite (5872025 / 4194304))]
            result := FMOD_OK } ∧
      F32.ofRat 1.4 = .finite (11744051 / 8388608) ∧
      (5872025 / 4194304 : ℚ) ≠ 11744051 / 8388608 ∧
      CP_Sound_SetDSPParameter okBackend remapped CP_SOUND_DSP_LOWPASS CP_SOUND_DSP_PARAM2 0
        = .ok
          { remapped with
            calls := remapped.calls ++ [FMODCall.DSP_SetParameterFloat 112 1 .nan]
            result := FMOD_OK } := by
  have h1 : F32.add (F32.mul (F32.sub (F32.ofRat 22000) (F32.ofRat 1))
      (F32.ofRat (13421773 / 134217728))) (F32.ofRat 1) = .finite 2200.900146484375 := by
    decide!
  have h2 : F32.add (F32.mul (F32.sub (F32.ofRat 1.4) (F32.ofRat 0.3)) (F32.ofRat 1))
      (F32.ofRat 0.3) = .finite (5872025 / 4194304) := by
    decide!
  have h3 : F32.add (F32.mul (F32.sub (F32.ofRat 3e38) (F32.ofRat (-3e38))) (F32.ofRat 0))
      (F32.ofRat (-3e38)) = .nan := by
    decide!
  refine ⟨?_, by decide!, rfl, ?_, by decide!, by decide!, ?_⟩
  · rw [SetDSPParameter_used okBackend initState CP_SOUND_DSP_LOWPASS CP_SOUND_DSP_PARAM1 _
      ⟨112, [⟨0, 1, 22000⟩, ⟨1, 0, 127⟩]⟩ ⟨0, 1, 22000⟩ rfl rfl (by decide), h1]
    rfl
  · rw [SetDSPParameter_used okBackend remapped CP_SOUND_DSP_LOWPASS CP_SOUND_DSP_PARAM1 _
      ⟨112, [⟨0, 0.3, 1.4⟩, ⟨1, -3e38, 3e38⟩]⟩ ⟨0, 0.3, 1.4⟩ rfl rfl (by decide), h2]
    rfl
  · rw [SetDSPParameter_used okBackend remapped CP_SOUND_DSP_LOWPASS CP_SOUND_DSP_PARAM2 _
      ⟨112, [⟨0, 0.3, 1.4⟩, ⟨1, -3e38, 3e38⟩]⟩ ⟨1, -3e38, 3e38⟩ rfl rfl (by decide), h3]
    rfl

/-- C6, amended.  For a slot `dsp` and a position `parameter` inside the arrays, with handle
`d.dsp` and mapping `p`, when `p.index` is not the unused sentinel then for every value
(inside `[0, 1]` or not) `CP_Sound_SetDSPParameter` records exactly one backend call,
`FMOD_DSP_SetParameterFloat` on `d.dsp` at index `p.index`, with the value of
`(max - min) * value + min` in `float` arithmetic, each operation rounded to nearest; it
stores the result code and changes nothing else.  After a `CP_Sound_Init` in which every
backend call succeeded, at every used mapping the value 0 sends exactly the stored `min` and
the value 1 exactly the stored `max`.  After
`CP_Sound_DSP_MapParameter(LOWPASS, PARAM1, 0, 1, 22000)` in any state, setting 0.5 issues
11000.5 at index 0 on the handle of the lowpass slot. -/
theorem C6_parameter_remap (B : Backend) (s : State) (dsp parameter : Int)
    (d : CP_Sound_DSP_Struct) (p : CP_Sound_DSP_Param_Struct)
    (hd : arrayAt s.dsp_list dsp = .ok d) (hp : arrayAt d.param parameter = .ok p)
    (hused : p.index ≠ CP_SOUND_DSP_PARAM_NOTUSED) :
    (∀ value : ℚ, CP_Sound_SetDSPParameter B s dsp parameter value = .ok
      { s with
        calls := s.calls ++
          [FMODCall.DSP_SetParameterFloat d.dsp p.index
            (F32.add (F32.mul (F32.sub (F32.ofRat p.max) (F32.ofRat p.min)) (F32.ofRat value))
              (F32.ofRat p.min))]
        result := (reply B s).result }) ∧
      (∀ (B0 : Backend) (H : Header) (s0 : State), s0.WF H →
        CP_Sound_Init B0 H s0 = .ok s → AllCallsOK B0 s0 s →
        CP_Sound_SetDSPParameter B s dsp parameter 0 = .ok
          { s with
            calls := s.calls ++
              [FMODCall.DSP_SetParameterFloat d.dsp p.index (F32.ofRat p.min)]
            result := (reply B s).result } ∧
        CP_Sound_SetDSPParameter B s dsp parameter 1 = .ok
          { s with
            calls := s.calls ++
              [FMODCall.DSP_SetParameterFloat d.dsp p.index (F32.ofRat p.max)]
            result := (reply B s).result }) ∧
      (∀ t t1 : State,
        CP_Sound_DSP_MapParameter t CP_SOUND_DSP_LOWPASS CP_SOUND_DSP_PARAM1 0 1 22000
          = .ok t1 →
        ∃ lowpass, arrayAt t.dsp_list CP_SOUND_DSP_LOWPASS = .ok lowpass ∧
          CP_Sound_SetDSPParameter B t1 CP_SOUND_DSP_LOWPASS CP_SOUND_DSP_PARAM1 0.5 = .ok
            { t1 with
              calls := t1.calls ++
                [FMODCall.DSP_SetParameterFloat lowpass.dsp 0 (.finite 11000.5)]
              result := (reply B t1).result }) := by
  refine ⟨fun value => SetDSPParameter_used B s dsp parameter value d p hd hp hused, ?_, ?_⟩
  · intro B0 H s0 hwf hinit hok
    obtain ⟨n, hl⟩ := Init_ok_dsp_list B0 H s0 s hwf hinit hok
    have hdm := arrayAt_mem _ _ _ hd
    have hpm := arrayAt_mem _ _ _ hp
    have hp16 : p ∈ ([⟨0, 1, 22000⟩, ⟨1, 0, 127⟩, ⟨0, 100, 20000⟩, ⟨11, -80, 20⟩,
        ⟨0, 1, 5000⟩, ⟨1, 0, 100⟩, ⟨0, 0, 1⟩, ⟨2, 0, 20⟩, ⟨0, 0, 100⟩, ⟨0, 0.1, 20⟩,
        ⟨1, 0, 1⟩, ⟨2, 0, 100⟩, ⟨0, 0.5, 2⟩] : List CP_Sound_DSP_Param_Struct) := by
      rw [hl] at hdm
      simp only [List.mem_cons, List.mem_singleton, List.not_mem_nil, or_false] at hdm
      rcases hdm with h | h | h | h | h | h | h | h <;> rw [h] at hpm <;>
        simp only [List.mem_cons, List.mem_singleton, List.not_mem_nil, or_false] at hpm <;>
        rcases hpm with h2 | h2 <;> first
          | (rw [h2]; simp; done)
          | exact absurd (by rw [h2]) hused
    obtain ⟨e0, e1⟩ := table_endpoints p hp16
    rw [SetDSPParameter_used B s dsp parameter 0 d p hd hp hused,
      SetDSPParameter_used B s dsp parameter 1 d p hd hp hused, e0, e1]
    exact ⟨rfl, rfl⟩
  · intro t t1 hmap
    obtain ⟨d0, d1, hd0, hd1, hdsp, hp1, _⟩ := MapParameter_then_read _ _ _ _ _ _ _ hmap
    refine ⟨d0, hd0, ?_⟩
    have h := SetDSPParameter_used B t1 CP_SOUND_DSP_LOWPASS CP_SOUND_DSP_PARAM1 0.5 d1
      ⟨0, 1, 22000⟩ hd1 hp1 (by decide)
    have hv : F32.add (F32.mul (F32.sub (F32.ofRat 22000) (F32.ofRat 1)) (F32.ofRat 0.5))
        (F32.ofRat 1) = .finite 11000.5 := by
      decide!
    rw [h, hdsp, hv]

/-- C6 (amended) at a concrete input: the lowpass cutoff of the initialised registry set to
0.5. -/
theorem C6_parameter_remap_witness :
    CP_Sound_SetDSPParameter okBackend initState CP_SOUND_DSP_LOWPASS CP_SOUND_DSP_PARAM1 0.5
      = .ok
        { initState with
          calls := initState.calls ++
            [FMODCall.DSP_SetParameterFloat 112 0 (.finite 11000.5)]
          result := FMOD_OK } := by
  have h := (C6_parameter_remap okBackend initState CP_SOUND_DSP_LOWPASS CP_SOUND_DSP_PARAM1
    ⟨112, [⟨0, 1, 22000⟩, ⟨1, 0, 127⟩]⟩ ⟨0, 1, 22000⟩ rfl rfl (by decide)).1 0.5
  have hv : F32.add (F32.mul (F32.sub (F32.ofRat 22000) (F32.ofRat 1)) (F32.ofRat 0.5))
      (F32.ofRat 1) = .finite 11000.5 := by
    decide!
  rw [h, hv]
  rfl

theorem SetDSPParameter_unused (B : Backend) (s : State) (dsp parameter : Int) (value : ℚ)
    (p : CP_Sound_DSP_Param_Struct) (hm : mappingAt s dsp parameter = .ok p)
    (hunused : p.index = CP_SOUND_DSP_PARAM_NOTUSED) :
    CP_Sound_SetDSPParameter B s dsp parameter value = .ok s := by
  unfold mappingAt at hm
  unfold CP_Sound_SetDSPParameter
  split at hm
  · cases hm
  · rename_i d hd
    simp only [hm, hunused, ne_eq, not_true_eq_false, if_false]

/-- C7. Unused-parameter no-op: when the mapping at slot `dsp`, position `parameter` has the
unused sentinel as native index, `CP_Sound_SetDSPParameter` returns, for every value, with
the state unchanged: no backend call is recorded and the registry is as before.  After a
`CP_Sound_Init` in which every backend call succeeded this is the case of `DISTORT`/`PARAM2`
and of `PITCH`/`PARAM2`. -/
theorem C7_unused_parameter_noop (B : Backend) (s : State) (dsp parameter : Int)
    (p : CP_Sound_DSP_Param_Struct) (hm : mappingAt s dsp parameter = .ok p)
    (hunused : p.index = CP_SOUND_DSP_PARAM_NOTUSED) :
    (∀ value : ℚ, CP_Sound_SetDSPParameter B s dsp parameter value = .ok s) ∧
      (∀ (B0 : Backend) (H : Header) (s0 s1 : State), s0.WF H →
        CP_Sound_Init B0 H s0 = .ok s1 → AllCallsOK B0 s0 s1 →
        ∀ value : ℚ,
          CP_Sound_SetDSPParameter B s1 CP_SOUND_DSP_DISTORT CP_SOUND_DSP_PARAM2 value
            = .ok s1 ∧
          CP_Sound_SetDSPParameter B s1 CP_SOUND_DSP_PITCH CP_SOUND_DSP_PARAM2 value
            = .ok s1) := by
  refine ⟨fun value => SetDSPParameter_unused B s dsp parameter value p hm hunused, ?_⟩
  intro B0 H s0 s1 hwf hinit hok value
  obtain ⟨n, hl⟩ := Init_ok_dsp_list B0 H s0 s1 hwf hinit hok
  refine ⟨?_, ?_⟩
  · exact SetDSPParameter_unused B s1 _ _ value ⟨-1, 0, 0⟩
      (by simp [mappingAt, arrayAt, hl, CP_SOUND_DSP_DISTORT, CP_SOUND_DSP_PARAM2]) rfl
  · exact SetDSPParameter_unused B s1 _ _ value ⟨-1, 0, 0⟩
      (by simp [mappingAt, arrayAt, hl, CP_SOUND_DSP_PITCH, CP_SOUND_DSP_PARAM2]) rfl

/-- C7 at a concrete input: the second parameter of the distortion slot of the initialised
registry. -/
theorem C7_unused_parameter_noop_witness :
    CP_Sound_SetDSPParameter okBackend initState CP_SOUND_DSP_DISTORT CP_SOUND_DSP_PARAM2 0.5
      = .ok initState :=
  (C7_unused_parameter_noop okBackend initState CP_SOUND_DSP_DISTORT CP_SOUND_DSP_PARAM2
    ⟨-1, 0, 0⟩ rfl rfl).1 0.5

/-- C8. DSP mapping table: after a `CP_Sound_Init` in which every backend call succeeded,
run from statics whose arrays have their declared sizes, the registry has eight slots and
the mapping (native index, min, max) of each slot and position is the one of the table;
the unused positions carry the sentinel `CP_SOUND_DSP_PARAM_NOTUSED`. -/
theorem C8_dsp_mapping_table (B : Backend) (H : Header) (s0 s : State) (hwf : s0.WF H)
    (hinit : CP_Sound_Init B H s0 = .ok s) (hok : AllCallsOK B s0 s) :
    s.dsp_list.length = CP_SOUND_DSP_MAX ∧
      mappingAt s CP_SOUND_DSP_LOWPASS CP_SOUND_DSP_PARAM1 = .ok ⟨0, 1, 22000⟩ ∧
      mappingAt s CP_SOUND_DSP_LOWPASS CP_SOUND_DSP_PARAM2 = .ok ⟨1, 0, 127⟩ ∧
      mappingAt s CP_SOUND_DSP_REVERB CP_SOUND_DSP_PARAM1 = .ok ⟨0, 100, 20000⟩ ∧
      mappingAt s CP_SOUND_DSP_REVERB CP_SOUND_DSP_PARAM2 = .ok ⟨11, -80, 20⟩ ∧
      mappingAt s CP_SOUND_DSP_ECHO CP_SOUND_DSP_PARAM1 = .ok ⟨0, 1, 5000⟩ ∧
      mappingAt s CP_SOUND_DSP_ECHO CP_SOUND_DSP_PARAM2 = .ok ⟨1, 0, 100⟩ ∧
      mappingAt s CP_SOUND_DSP_DISTORT CP_SOUND_DSP_PARAM1 = .ok ⟨0, 0, 1⟩ ∧
      mappingAt s CP_SOUND_DSP_DISTORT CP_SOUND_DSP_PARAM2
        = .ok ⟨CP_SOUND_DSP_PARAM_NOTUSED, 0, 0⟩ ∧
      mappingAt s CP_SOUND_DSP_FLANGE CP_SOUND_DSP_PARAM1 = .ok ⟨2, 0, 20⟩ ∧
      mappingAt s CP_SOUND_DSP_FLANGE CP_SOUND_DSP_PARAM2 = .ok ⟨0, 0, 100⟩ ∧
      mappingAt s CP_SOUND_DSP_TREMOLO CP_SOUND_DSP_PARAM1 = .ok ⟨0, 0.1, 20⟩ ∧
      mappingAt s CP_SOUND_DSP_TREMOLO CP_SOUND_DSP_PARAM2 = .ok ⟨1, 0, 1⟩ ∧
      mappingAt s CP_SOUND_DSP_CHORUS CP_SOUND_DSP_PARAM1 = .ok ⟨2, 0, 100⟩ ∧
      mappingAt s CP_SOUND_DSP_CHORUS CP_SOUND_DSP_PARAM2 = .ok ⟨0, 0, 100⟩ ∧
      mappingAt s CP_SOUND_DSP_PITCH CP_SOUND_DSP_PARAM1 = .ok ⟨0, 0.5, 2⟩ ∧
      mappingAt s CP_SOUND_DSP_PITCH CP_SOUND_DSP_PARAM2
        = .ok ⟨CP_SOUND_DSP_PARAM_NOTUSED, 0, 0⟩ := by
  obtain ⟨n, hl⟩ := Init_ok_dsp_list B H s0 s hwf hinit hok
  simp [mappingAt, arrayAt, hl, CP_SOUND_DSP_PARAM1, CP_SOUND_DSP_PARAM2,
    CP_SOUND_DSP_LOWPASS, CP_SOUND_DSP_REVERB, CP_SOUND_DSP_ECHO, CP_SOUND_DSP_DISTORT,
    CP_SOUND_DSP_FLANGE, CP_SOUND_DSP_TREMOLO, CP_SOUND_DSP_CHORUS, CP_SOUND_DSP_PITCH,
    CP_SOUND_DSP_PARAM_NOTUSED, CP_SOUND_DSP_MAX]

theorem initial_WF (H : Header) : (State.initial H).WF H := by
  refine ⟨by simp [State.initial], by simp [State.initial], ?_⟩
  intro d hd
  simp only [State.initial, List.mem_replicate] at hd
  rw [hd.2]
  rfl

/-- C8 at a concrete run: `CP_Sound_Init` at program start with the accepting backend. -/
theorem C8_dsp_mapping_table_witness :
    initState.dsp_list.length = CP_SOUND_DSP_MAX ∧
      mappingAt initState CP_SOUND_DSP_LOWPASS CP_SOUND_DSP_PARAM1 = .ok ⟨0, 1, 22000⟩ ∧
      mappingAt initState CP_SOUND_DSP_LOWPASS CP_SOUND_DSP_PARAM2 = .ok ⟨1, 0, 127⟩ ∧
      mappingAt initState CP_SOUND_DSP_REVERB CP_SOUND_DSP_PARAM1 = .ok ⟨0, 100, 20000⟩ ∧
      mappingAt initState CP_SOUND_DSP_REVERB CP_SOUND_DSP_PARAM2 = .ok ⟨11, -80, 20⟩ ∧
      mappingAt initState CP_SOUND_DSP_ECHO CP_SOUND_DSP_PARAM1 = .ok ⟨0, 1, 5000⟩ ∧
      mappingAt initState CP_SOUND_DSP_ECHO CP_SOUND_DSP_PARAM2 = .ok ⟨1, 0, 100⟩ ∧
      mappingAt initState CP_SOUND_DSP_DISTORT CP_SOUND_DSP_PARAM1 = .ok ⟨0, 0, 1⟩ ∧
      mappingAt initState CP_SOUND_DSP_DISTORT CP_SOUND_DSP_PARAM2
        = .ok ⟨CP_SOUND_DSP_PARAM_NOTUSED, 0, 0⟩ ∧
      mappingAt initState CP_SOUND_DSP_FLANGE CP_SOUND_DSP_PARAM1 = .ok ⟨2, 0, 20⟩ ∧
      mappingAt initState CP_SOUND_DSP_FLANGE CP_SOUND_DSP_PARAM2 = .ok ⟨0, 0, 100⟩ ∧
      mappingAt initState CP_SOUND_DSP_TREMOLO CP_SOUND_DSP_PARAM1 = .ok ⟨0, 0.1, 20⟩ ∧
      mappingAt initState CP_SOUND_DSP_TREMOLO CP_SOUND_DSP_PARAM2 = .ok ⟨1, 0, 1⟩ ∧
      mappingAt initState CP_SOUND_DSP_CHORUS CP_SOUND_DSP_PARAM1 = .ok ⟨2, 0, 100⟩ ∧
      mappingAt initState CP_SOUND_DSP_CHORUS CP_SOUND_DSP_PARAM2 = .ok ⟨0, 0, 100⟩ ∧
      mappingAt initState CP_SOUND_DSP_PITCH CP_SOUND_DSP_PARAM1 = .ok ⟨0, 0.5, 2⟩ ∧
      mappingAt initState CP_SOUND_DSP_PITCH CP_SOUND_DSP_PARAM2
        = .ok ⟨CP_SOUND_DSP_PARAM_NOTUSED, 0, 0⟩ :=
  C8_dsp_mapping_table okBackend sampleHeader (State.initial sampleHeader) initState
    (initial_WF sampleHeader) (by rfl) (fun _ _ _ => rfl)

/-! ## Mixing groups -/

theorem IsValidSoundGroup_false (H : Header) (group : Int)
    (hg : group < 0 ∨ (H.CP_SOUND_GROUP_MAX : Int) ≤ group) :
    CP_IsValidSoundGroup H group = false := by
  simp only [CP_IsValidSoundGroup, ge_iff_le, Bool.and_eq_false_imp, decide_eq_true_eq,
    decide_eq_false_iff_not, not_lt]
  intro h0
  rcases hg with h | h
  · omega
  · exact h

/-- C9. Group validity guard: for a group identifier below 0 or at least
`CP_SOUND_GROUP_MAX`, every group-scoped operation (`PauseGroup`, `ResumeGroup`,
`StopGroup`, `SetGroupVolume`, `SetGroupPitch`, `SetGroupDSP`, `ClearGroupDSP`,
`RemoveGroupDSP`, `PlayAdvanced`, with any other arguments) returns with the state unchanged,
so no backend call is recorded and no static changes, and `GetGroupVolume` and
`GetGroupPitch` return 0 with the state unchanged. -/
theorem C9_invalid_group_guard (B : Backend) (H : Header) (s : State) (group : Int)
    (hg : group < 0 ∨ (H.CP_SOUND_GROUP_MAX : Int) ≤ group) :
    CP_Sound_PauseGroup B H s group = .ok s ∧
      CP_Sound_ResumeGroup B H s group = .ok s ∧
      CP_Sound_StopGroup B H s group = .ok s ∧
      (∀ volume : ℚ, CP_Sound_SetGroupVolume B H s group volume = .ok s) ∧
      (∀ pitch : ℚ, CP_Sound_SetGroupPitch B H s group pitch = .ok s) ∧
      (∀ dspType : Int, CP_Sound_SetGroupDSP B H s group dspType = .ok s) ∧
      CP_Sound_ClearGroupDSP B H s group = .ok s ∧
      (∀ dsp : Int, CP_Sound_RemoveGroupDSP B H s group dsp = .ok s) ∧
      (∀ (sound : Ptr) (volume pitch : ℚ) (looping : Bool),
        CP_Sound_PlayAdvanced B H s sound volume pitch looping group = .ok s) ∧
      CP_Sound_GetGroupVolume B H s group = .ok (0, s) ∧
      CP_Sound_GetGroupPitch B H s group = .ok (0, s) := by
  have hv := IsValidSoundGroup_false H group hg
  simp [CP_Sound_PauseGroup, CP_Sound_ResumeGroup, CP_Sound_StopGroup,
    CP_Sound_SetGroupVolume, CP_Sound_SetGroupPitch, CP_Sound_SetGroupDSP,
    CP_Sound_ClearGroupDSP, CP_Sound_RemoveGroupDSP, CP_Sound_PlayAdvanced,
    CP_Sound_GetGroupVolume, CP_Sound_GetGroupPitch, groupCall, hv]

/-- C9 at a concrete input: the group identifier `CP_SOUND_GROUP_MAX` itself, in the
initialised state. -/
theorem C9_invalid_group_guard_witness :
    CP_Sound_PauseGroup okBackend sampleHeader initState 10 = .ok initState ∧
      CP_Sound_ResumeGroup okBackend sampleHeader initState 10 = .ok initState ∧
      CP_Sound_StopGroup okBackend sampleHeader initState 10 = .ok initState ∧
      (∀ volume : ℚ,
        CP_Sound_SetGroupVolume okBackend sampleHeader initState 10 volume = .ok initState) ∧
      (∀ pitch : ℚ,
        CP_Sound_SetGroupPitch okBackend sampleHeader initState 10 pitch = .ok initState) ∧
      (∀ dspType : Int,
        CP_Sound_SetGroupDSP okBackend sampleHeader initState 10 dspType = .ok initState) ∧
      CP_Sound_ClearGroupDSP okBackend sampleHeader initState 10 = .ok initState ∧
      (∀ dsp : Int,
        CP_Sound_RemoveGroupDSP okBackend sampleHeader initState 10 dsp = .ok initState) ∧
      (∀ (sound : Ptr) (volume pitch : ℚ) (looping : Bool),
        CP_Sound_PlayAdvanced okBackend sampleHeader initState sound volume pitch looping 10
          = .ok initState) ∧
      CP_Sound_GetGroupVolume okBackend sampleHeader initState 10 = .ok (0, initState) ∧
      CP_Sound_GetGroupPitch okBackend sampleHeader initState 10 = .ok (0, initState) :=
  C9_invalid_group_guard okBackend sampleHeader initState 10 (Or.inr (by decide))

/-- C10, the code at the failing input: in the initialised state, with the DSP identifier
`CP_SOUND_DSP_MAX` (a member of the enumeration), `CP_Sound_SetDSPParameter` and
`CP_Sound_ResetDSP`, and `CP_Sound_SetGroupDSP` and `CP_Sound_RemoveGroupDSP` on a valid
group, read `dsp_list` outside its bounds; so does `CP_Sound_SetDSPParameter` with a negative
identifier, and with the parameter position 2 it reads `param` outside its bounds. -/
theorem C10_invalid_dsp_out_of_bounds :
    CP_Sound_SetDSPParameter okBackend initState CP_SOUND_DSP_MAX CP_SOUND_DSP_PARAM1 0.5
        = .error .outOfBounds ∧
      CP_Sound_ResetDSP okBackend initState CP_SOUND_DSP_MAX = .error .outOfBounds ∧
      CP_Sound_SetGroupDSP okBackend sampleHeader initState 0 CP_SOUND_DSP_MAX
        = .error .outOfBounds ∧
      CP_Sound_RemoveGroupDSP okBackend sampleHeader initState 0 CP_SOUND_DSP_MAX
        = .error .outOfBounds ∧
      CP_Sound_SetDSPParameter okBackend initState (-1) CP_SOUND_DSP_PARAM1 0.5
        = .error .outOfBounds ∧
      CP_Sound_SetDSPParameter okBackend initState CP_SOUND_DSP_LOWPASS 2 0.5
        = .error .outOfBounds :=
  ⟨rfl, rfl, rfl, rfl, rfl, rfl⟩

/-! ## Playing -/

theorem clamp_eq_max (x : ℚ) : (if x < 0 then 0 else x) = max x 0 := by
  by_cases h : x < 0
  · rw [if_pos h, max_eq_right (le_of_lt h)]
  · rw [if_neg h, max_eq_left (not_lt.mp h)]

theorem PlayAdvanced_played (B : Backend) (H : Header) (s : State) (sound : Ptr)
    (snd : CP_Sound_Struct) (volume pitch : ℚ) (looping : Bool) (group : Int) (cg : Ptr)
    (hnn : sound ≠ NULL) (hsnd : derefSound s sound = .ok snd)
    (hvalid : CP_IsValidSoundGroup H group = true)
    (hcg : arrayAt s.channel_groups group = .ok cg)
    (hplay : (reply B s).result = FMOD_OK) :
    ∃ r, CP_Sound_PlayAdvanced B H s sound volume pitch looping group = .ok
      { s with
        calls := s.calls ++
          [FMODCall.System_PlaySound s._fmod_system snd.sound cg FMOD_TRUE] ++
          (if volume ≠ 1 then [FMODCall.Channel_SetVolume (reply B s).handle (max volume 0)]
            else []) ++
          (if pitch ≠ 1 then [FMODCall.Channel_SetPitch (reply B s).handle (max pitch 0)]
            else []) ++
          (if looping = true then
            [FMODCall.Channel_SetMode_LOOP_NORMAL (reply B s).handle,
              FMODCall.Channel_SetLoopCount (reply B s).handle (-1)]
            else []) ++
          [FMODCall.Channel_SetPaused (reply B s).handle FMOD_FALSE]
        result := r } := by
  simp only [CP_Sound_PlayAdvanced, hvalid, hnn, hsnd, hcg, hplay, clamp_eq_max]
  by_cases hvol : volume = 1 <;> by_cases hpit : pitch = 1 <;> cases looping <;>
    simp [hvol, hpit, issue]

/-- C11. Play sequence: for a non-null sound whose struct is live, holding the backend sound
`snd.sound`, and a valid group whose channel group is `cg`, `CP_Sound_PlayAdvanced` records,
when the backend accepts the play call, exactly: play-sound of `snd.sound` into `cg`, started
paused; a channel set-volume with `max volume 0` exactly when `volume ≠ 1`; a channel
set-pitch with `max pitch 0` exactly when `pitch ≠ 1`; set-mode loop-normal then
set-loop-count -1 exactly when `looping`; and set-paused false; all on the channel the play
call returned, and no static other than `result` changes.  When the backend refuses the play
call, that call is the only one recorded.  `CP_Sound_Play`, the case of the SFX group, records
only the play call and the unpause. -/
theorem C11_play_sequence (B : Backend) (H : Header) (s : State) (sound : Ptr)
    (snd : CP_Sound_Struct) (volume pitch : ℚ) (looping : Bool) (group : Int) (cg : Ptr)
    (hnn : sound ≠ NULL) (hsnd : derefSound s sound = .ok snd)
    (hvalid : CP_IsValidSoundGroup H group = true)
    (hcg : arrayAt s.channel_groups group = .ok cg) :
    ((reply B s).result = FMOD_OK →
      ∃ r, CP_Sound_PlayAdvanced B H s sound volume pitch looping group = .ok
        { s with
          calls := s.calls ++
            [FMODCall.System_PlaySound s._fmod_system snd.sound cg FMOD_TRUE] ++
            (if volume ≠ 1 then
              [FMODCall.Channel_SetVolume (reply B s).handle (max volume 0)] else []) ++
            (if pitch ≠ 1 then
              [FMODCall.Channel_SetPitch (reply B s).handle (max pitch 0)] else []) ++
            (if looping = true then
              [FMODCall.Channel_SetMode_LOOP_NORMAL (reply B s).handle,
                FMODCall.Channel_SetLoopCount (reply B s).handle (-1)]
              else []) ++
            [FMODCall.Channel_SetPaused (reply B s).handle FMOD_FALSE]
          result := r }) ∧
      ((reply B s).result ≠ FMOD_OK →
        CP_Sound_PlayAdvanced B H s sound volume pitch looping group = .ok
          { s with
            calls := s.calls ++
              [FMODCall.System_PlaySound s._fmod_system snd.sound cg FMOD_TRUE]
            result := (reply B s).result }) ∧
      (group = H.CP_SOUND_GROUP_SFX → (reply B s).result = FMOD_OK →
        ∃ r, CP_Sound_Play B H s sound = .ok
          { s with
            calls := s.calls ++
              [FMODCall.System_PlaySound s._fmod_system snd.sound cg FMOD_TRUE,
                FMODCall.Channel_SetPaused (reply B s).handle FMOD_FALSE]
            result := r }) := by
  refine ⟨?_, ?_, ?_⟩
  · intro hplay
    exact PlayAdvanced_played B H s sound snd volume pitch looping group cg hnn hsnd hvalid
      hcg hplay
  · intro hfail
    have hfail1 : ¬ (reply B s).result = 0 := hfail
    simp [CP_Sound_PlayAdvanced, hvalid, hnn, hsnd, hcg, hfail1, issue]
  · intro hg hplay
    subst hg
    obtain ⟨r, hr⟩ := PlayAdvanced_played B H s sound snd 1 1 false _ cg hnn hsnd hvalid
      hcg hplay
    refine ⟨r, ?_⟩
    rw [CP_Sound_Play, hr]
    simp

/-- C11 at a concrete input: `a.wav` played in the MUSIC group with volume -0.5, pitch 2 and
looping: the volume sent is 0. -/
theorem C11_play_sequence_witness :
    ∃ r, CP_Sound_PlayAdvanced okBackend sampleHeader twoSounds 1000 (-0.5) 2 true 1 = .ok
      { twoSounds with
        calls := twoSounds.calls ++
          [FMODCall.System_PlaySound 100 120 103 FMOD_TRUE,
            FMODCall.Channel_SetVolume 122 0,
            FMODCall.Channel_SetPitch 122 2,
            FMODCall.Channel_SetMode_LOOP_NORMAL 122,
            FMODCall.Channel_SetLoopCount 122 (-1),
            FMODCall.Channel_SetPaused 122 FMOD_FALSE]
        result := r } := by
  obtain ⟨r, hr⟩ := (C11_play_sequence okBackend sampleHeader twoSounds 1000 ⟨"a.wav", 120⟩
    (-0.5) 2 true 1 103 (by decide) rfl rfl rfl).1 rfl
  refine ⟨r, ?_⟩
  rw [hr]
  norm_num [reply, okBackend, twoSounds, initState]

/-! ## Teardown -/

theorem releaseLoop_eq (v : List Entry) :
    ∀ (s : State), releaseLoop v s =
      { s with calls := s.calls ++ v.map (fun e => FMODCall.Sound_Release e.2.sound) } := by
  induction v with
  | nil => intro s; simp [releaseLoop]
  | cons e rest ih =>
    intro s
    unfold releaseLoop
    rw [ih]
    simp [issue]

theorem arrayAt_nat {α : Type} (a : List α) (i : Nat) (h : i < a.length) :
    arrayAt a (i : Int) = .ok (a.get ⟨i, h⟩) := by
  simp [arrayAt, List.getElem?_eq_getElem h]

/-- The loop over the groups makes one call per entry of `channel_groups`, from `index` on,
and touches only `result` and the trace. -/
theorem groupLoop_eq (B : Backend) (mk : Ptr → FMODCall) (n : Nat) :
    ∀ (index : Nat) (s : State), index + n ≤ s.channel_groups.length →
      ∃ r, groupLoop B mk n index s = .ok
        { s with
          result := r
          calls := s.calls ++ ((s.channel_groups.drop index).take n).map mk } := by
  induction n with
  | zero =>
    intro index s _
    exact ⟨s.result, by simp [groupLoop]⟩
  | succ n ih =>
    intro index s hle
    have hlt : index < s.channel_groups.length := by omega
    obtain ⟨r, hr⟩ := ih (index + 1)
      { issue s (mk (s.channel_groups.get ⟨index, hlt⟩)) with result := (reply B s).result }
      (by simp only [issue]; omega)
    refine ⟨r, ?_⟩
    unfold groupLoop
    rw [arrayAt_nat s.channel_groups index hlt]
    dsimp only [issue] at hr ⊢
    rw [hr]
    have hlt1 : index < (List.map mk s.channel_groups).length := by simpa using hlt
    simp
    rw [List.drop_eq_getElem_cons hlt1]
    simp

theorem not_resident_of_freed (s : State) (h : s.sound_vector = none) (a : Ptr) :
    ¬ Resident s a := by
  rintro ⟨v, st, hv, _⟩
  rw [h] at hv
  cases hv

/-- The teardown of an initialised state: a stop on every entry of `channel_groups`, a release
of the backend sound of every entry of the sound vector, in order, and a release of the
system; the sound vector is freed and the system handle set to `NULL`. -/
theorem Shutdown_eq (B : Backend) (H : Header) (s : State) (v : List Entry)
    (hsys : s._fmod_system ≠ NULL) (hv : s.sound_vector = some v)
    (hlen : s.channel_groups.length = H.CP_SOUND_GROUP_MAX) :
    ∃ r, CP_Sound_Shutdown B H s = .ok
      { s with
        result := r
        _fmod_system := NULL
        sound_vector := none
        calls := s.calls ++ s.channel_groups.map FMODCall.ChannelGroup_Stop ++
          v.map (fun e => FMODCall.Sound_Release e.2.sound) ++
          [FMODCall.System_Release s._fmod_system] } := by
  obtain ⟨r, hr⟩ := groupLoop_eq B FMODCall.ChannelGroup_Stop H.CP_SOUND_GROUP_MAX 0 s
    (by omega)
  refine ⟨r, ?_⟩
  unfold CP_Sound_Shutdown
  rw [if_pos hsys]
  unfold CP_Sound_StopAll
  rw [hr]
  simp only [hv, releaseLoop_eq, issue, List.drop_zero, ← hlen, List.take_length]

/-- C13. Shutdown: from an initialised state (system handle non-null, static arrays of their
declared sizes) whose sound vector holds the entries `v`, `CP_Sound_Shutdown` returns and
records, after a stop on every channel group, exactly one `FMOD_Sound_Release` per entry of
`v`, in order and each on the backend sound of that entry, then the release of the system;
afterwards the sound vector is freed, so that no asset is resident, and the system handle is
`NULL`; the other statics but `result` are unchanged.  A second `CP_Sound_Shutdown` returns
the state unchanged: no call is recorded.  When the backend answers the per-frame update with
a failure, `CP_Sound_Update` records the update call and then performs the same teardown. -/
theorem C13_shutdown (B : Backend) (H : Header) (s : State) (v : List Entry)
    (hsys : s._fmod_system ≠ NULL) (hv : s.sound_vector = some v)
    (hlen : s.channel_groups.length = H.CP_SOUND_GROUP_MAX) :
    (∃ s1, CP_Sound_Shutdown B H s = .ok s1 ∧
      s1.calls = s.calls ++ s.channel_groups.map FMODCall.ChannelGroup_Stop ++
        v.map (fun e => FMODCall.Sound_Release e.2.sound) ++
        [FMODCall.System_Release s._fmod_system] ∧
      s1.sound_vector = none ∧ (∀ a, ¬ Resident s1 a) ∧ s1._fmod_system = NULL ∧
      s1.channel_groups = s.channel_groups ∧ s1.dsp_list = s.dsp_list ∧
      s1.stdout = s.stdout ∧
      CP_Sound_Shutdown B H s1 = .ok s1) ∧
      ((reply B s).result ≠ FMOD_OK →
        ∃ s2, CP_Sound_Update B H s = .ok s2 ∧
          s2.calls = s.calls ++ [FMODCall.System_Update s._fmod_system] ++
            s.channel_groups.map FMODCall.ChannelGroup_Stop ++
            v.map (fun e => FMODCall.Sound_Release e.2.sound) ++
            [FMODCall.System_Release s._fmod_system] ∧
          s2.sound_vector = none ∧ (∀ a, ¬ Resident s2 a) ∧ s2._fmod_system = NULL ∧
          s2.channel_groups = s.channel_groups ∧ s2.dsp_list = s.dsp_list ∧
          s2.stdout = s.stdout ∧
          CP_Sound_Shutdown B H s2 = .ok s2 ∧ CP_Sound_Update B H s2 = .ok s2) := by
  refine ⟨?_, ?_⟩
  · obtain ⟨r, hr⟩ := Shutdown_eq B H s v hsys hv hlen
    exact ⟨_, hr, rfl, rfl, not_resident_of_freed _ rfl, rfl, rfl, rfl, rfl, rfl⟩
  · intro hfail
    obtain ⟨r, hr⟩ := Shutdown_eq B H
      { issue s (.System_Update s._fmod_system) with result := (reply B s).result } v
      hsys hv hlen
    dsimp only [issue] at hr
    refine ⟨{ s with
      result := r
      _fmod_system := NULL
      sound_vector := none
      calls := s.calls ++ [FMODCall.System_Update s._fmod_system] ++
        s.channel_groups.map FMODCall.ChannelGroup_Stop ++
        v.map (fun e => FMODCall.Sound_Release e.2.sound) ++
        [FMODCall.System_Release s._fmod_system] }, ?_, rfl, rfl,
      not_resident_of_freed _ rfl, rfl, rfl, rfl, rfl, rfl, rfl⟩
    simp only [CP_Sound_Update, hsys, ne_eq, not_false_eq_true, if_true, hfail, issue]
    exact hr

/-- C13 at a concrete input: the cache holding `a.wav` and `b.ogg` is shut down. -/
theorem C13_shutdown_witness :
    (∃ s1, CP_Sound_Shutdown okBackend sampleHeader twoSounds = .ok s1 ∧
      s1.calls = twoSounds.calls ++
        [FMODCall.ChannelGroup_Stop 102, FMODCall.ChannelGroup_Stop 103,
          FMODCall.ChannelGroup_Stop 104, FMODCall.ChannelGroup_Stop 105,
          FMODCall.ChannelGroup_Stop 106, FMODCall.ChannelGroup_Stop 107,
          FMODCall.ChannelGroup_Stop 108, FMODCall.ChannelGroup_Stop 109,
          FMODCall.ChannelGroup_Stop 110, FMODCall.ChannelGroup_Stop 111] ++
        [FMODCall.Sound_Release 120, FMODCall.Sound_Release 121] ++
        [FMODCall.System_Release 100] ∧
      s1.sound_vector = none ∧ (∀ a, ¬ Resident s1 a) ∧ s1._fmod_system = NULL ∧
      s1.channel_groups = twoSounds.channel_groups ∧ s1.dsp_list = twoSounds.dsp_list ∧
      s1.stdout = twoSounds.stdout ∧
      CP_Sound_Shutdown okBackend sampleHeader s1 = .ok s1) :=
  (C13_shutdown okBackend sampleHeader twoSounds
    [(1000, ⟨"a.wav", 120⟩), (1001, ⟨"b.ogg", 121⟩)] (by decide) rfl rfl).1

/-! ## A failure while the channel groups are created -/

theorem arraySet_nat {α : Type} (a : List α) (i : Nat) (x : α) (h : i < a.length) :
    arraySet a (i : Int) x = .ok (a.set i x) := by
  simp [arraySet, h]

theorem createGroupsLoop_stopped (B : Backend) (n index : Nat) (s : State)
    (h : s.result ≠ FMOD_OK) : createGroupsLoop B n index s = .ok s := by
  cases n with
  | zero => rfl
  | succ n =>
    unfold createGroupsLoop
    rw [if_neg h]

/-- The creation loop when the first `j` creations succeed and the next one fails: it makes
`j + 1` calls and stops; the entries `index .. index + j` of `channel_groups` hold what the
backend stored, the other entries are as before. -/
theorem createGroupsLoop_fail_at (B : Backend) (j : Nat) :
    ∀ (n index : Nat) (s : State), s.result = FMOD_OK →
      index + n ≤ s.channel_groups.length → j < n →
      (∀ t, t < j → (B (s.calls.length + t)).result = FMOD_OK) →
      (B (s.calls.length + j)).result ≠ FMOD_OK →
      ∃ groups, groups.length = s.channel_groups.length ∧
        (∀ t, t ≤ j → groups[index + t]? = some (B (s.calls.length + t)).handle) ∧
        (∀ p, p < index ∨ index + j < p → groups[p]? = s.channel_groups[p]?) ∧
        createGroupsLoop B n index s = .ok
          { s with
            result := (B (s.calls.length + j)).result
            channel_groups := groups
            calls := s.calls ++
              List.replicate (j + 1) (FMODCall.System_CreateChannelGroup s._fmod_system) } := by
  induction j with
  | zero =>
    intro n index s hres hle hj _ hfail
    obtain ⟨m, rfl⟩ : ∃ m, n = m + 1 := ⟨n - 1, by omega⟩
    have hlt : index < s.channel_groups.length := by omega
    refine ⟨s.channel_groups.set index (B s.calls.length).handle, by simp, ?_, ?_, ?_⟩
    · intro t ht
      have : t = 0 := by omega
      subst this
      simp [List.getElem?_set_self, hlt]
    · intro p hp
      have hne : index ≠ p := by omega
      simp [List.getElem?_set_ne hne]
    · unfold createGroupsLoop
      rw [if_pos hres]
      simp only [reply, arraySet_nat _ _ _ hlt]
      rw [createGroupsLoop_stopped]
      · simp [issue]
      · simpa using hfail
  | succ j ih =>
    intro n index s hres hle hj hok hfail
    obtain ⟨m, rfl⟩ : ∃ m, n = m + 1 := ⟨n - 1, by omega⟩
    have hlt : index < s.channel_groups.length := by omega
    have h0 : (B s.calls.length).result = FMOD_OK := by simpa using hok 0 (by omega)
    obtain ⟨groups, hlen, hnew, hold, hrun⟩ := ih m (index + 1)
      { issue s (.System_CreateChannelGroup s._fmod_system) with
        result := (reply B s).result
        channel_groups := s.channel_groups.set index (reply B s).handle }
      (by simpa [reply] using h0)
      (by simp only [List.length_set]; omega)
      (by omega)
      (by
        intro t ht
        have := hok (t + 1) (by omega)
        simpa [issue, Nat.add_assoc, Nat.add_comm 1 t] using this)
      (by simpa [issue, Nat.add_assoc, Nat.add_comm 1 j] using hfail)
    simp only [issue, List.length_set, List.length_append, List.length_singleton, reply]
      at hlen hnew hold hrun
    refine ⟨groups, hlen, ?_, ?_, ?_⟩
    · intro t ht
      cases t with
      | zero =>
        have h1 := hold index (Or.inl (by omega))
        rw [Nat.add_zero, h1]
        simp [List.getElem?_set_self, hlt]
      | succ t =>
        have h1 := hnew t (by omega)
        have e1 : index + (t + 1) = index + 1 + t := by omega
        have e2 : s.calls.length + (t + 1) = s.calls.length + 1 + t := by omega
        rw [e1, e2]
        exact h1
    · intro p hp
      have h1 := hold p (by omega)
      have hne : index ≠ p := by omega
      rw [h1]
      simp [List.getElem?_set_ne hne]
    · unfold createGroupsLoop
      rw [if_pos hres]
      simp only [reply, arraySet_nat _ _ _ hlt, issue]
      rw [hrun]
      have e2 : s.calls.length + (j + 1) = s.calls.length + 1 + j := by omega
      simp [e2, List.replicate_succ]

/-- `CP_Sound_Init` when the backend creates a non-null system, initialises it, creates the
first `k - 1` channel groups and fails at the creation number `k`: the loop stops after `k`
creation calls, and the teardown stops every entry of `channel_groups`, releases the system,
frees the sound vector and sets the system handle to `NULL`. -/
theorem Init_group_failure (B : Backend) (H : Header) (s0 : State) (k : Nat)
    (hwf : s0.WF H) (hk1 : 1 ≤ k) (hkN : k ≤ H.CP_SOUND_GROUP_MAX)
    (hcreate : (B s0.calls.length).result = FMOD_OK)
    (hsys : (B s0.calls.length).handle ≠ NULL)
    (hinit : (B (s0.calls.length + 1)).result = FMOD_OK)
    (hok : ∀ t, t + 1 < k → (B (s0.calls.length + 2 + t)).result = FMOD_OK)
    (hfail : (B (s0.calls.length + 1 + k)).result ≠ FMOD_OK) :
    ∃ r groups, groups.length = H.CP_SOUND_GROUP_MAX ∧
      (∀ t, t < k → groups[t]? = some (B (s0.calls.length + 2 + t)).handle) ∧
      (∀ p, k ≤ p → groups[p]? = s0.channel_groups[p]?) ∧
      CP_Sound_Init B H s0 = .ok
        { s0 with
          result := r
          _fmod_system := NULL
          sound_vector := none
          channel_groups := groups
          calls := s0.calls ++
            [FMODCall.System_Create,
              FMODCall.System_Init (B s0.calls.length).handle MAX_FMOD_CHANNELS] ++
            List.replicate k (FMODCall.System_CreateChannelGroup (B s0.calls.length).handle) ++
            groups.map FMODCall.ChannelGroup_Stop ++
            [FMODCall.System_Release (B s0.calls.length).handle] } := by
  obtain ⟨hgl, _, _⟩ := hwf
  obtain ⟨j, rfl⟩ : ∃ j, k = j + 1 := ⟨k - 1, by omega⟩
  obtain ⟨groups, hlen, hnew, hold, hrun⟩ := createGroupsLoop_fail_at B j
    H.CP_SOUND_GROUP_MAX 0
    { s0 with
      sound_vector := some []
      result := (B (s0.calls.length + 1)).result
      _fmod_system := (B s0.calls.length).handle
      calls := s0.calls ++
        [FMODCall.System_Create,
          FMODCall.System_Init (B s0.calls.length).handle MAX_FMOD_CHANNELS] }
    hinit (by simp only [Nat.zero_add]; omega) (by omega)
    (by
      intro t ht
      have := hok t (by omega)
      simpa [Nat.add_assoc] using this)
    (by
      have e : s0.calls.length + 1 + (j + 1) = s0.calls.length + 2 + j := by omega
      rw [e] at hfail
      simpa [Nat.add_assoc] using hfail)
  dsimp only at hlen hnew hold hrun
  simp only [List.length_append, List.length_cons, List.length_nil, Nat.zero_add]
    at hlen hnew hold hrun
  obtain ⟨r, hshut⟩ := Shutdown_eq B H
    { s0 with
      sound_vector := some []
      result := (B (s0.calls.length + (1 + 1) + j)).result
      _fmod_system := (B s0.calls.length).handle
      channel_groups := groups
      calls := s0.calls ++
        [FMODCall.System_Create,
          FMODCall.System_Init (B s0.calls.length).handle MAX_FMOD_CHANNELS] ++
        List.replicate (j + 1)
          (FMODCall.System_CreateChannelGroup (B s0.calls.length).handle) }
    [] hsys rfl (by rw [← hgl]; exact hlen)
  refine ⟨r, groups, by rw [hlen, hgl], ?_, ?_, ?_⟩
  · intro t ht
    exact hnew t (by omega)
  · intro p hp
    exact hold p (Or.inr (by omega))
  · have hc : ¬ (B s0.calls.length).result ≠ FMOD_OK := not_not.mpr hcreate
    have hi : ¬ (B (s0.calls.length + 1)).result ≠ FMOD_OK := not_not.mpr hinit
    have hf : (B (s0.calls.length + (1 + 1) + j)).result ≠ FMOD_OK := by
      have e : s0.calls.length + 1 + (j + 1) = s0.calls.length + (1 + 1) + j := by omega
      rw [e] at hfail
      exact hfail
    unfold CP_Sound_Init
    simp only [reply, issue, List.length_append, List.length_singleton, hc, hi, if_false,
      List.append_assoc, List.singleton_append]
    simp only [List.append_assoc, List.singleton_append] at hrun hshut
    rw [hrun]
    dsimp only
    rw [if_pos hf, hshut]
    simp

/-- C12, as stated, fails: with ten groups, `CP_Sound_Init` at program start against a backend
that fails at the third channel-group creation ends in `failedInit`: the teardown recorded a
stop on each of the ten entries of `channel_groups`, the seven never created among them, and
the release of the system, and no release of a channel group; the sound vector is freed and
the system handle `NULL`.  From there `CP_Sound_Load` reads the freed sound vector, and
`CP_Sound_PauseAll`, `CP_Sound_StopGroup`, `CP_Sound_ResetDSP` and `CP_Sound_SetGroupDSP`
record backend calls. -/
theorem C12_teardown_counterexample :
    CP_Sound_Init groupFailBackend sampleHeader (State.initial sampleHeader) = .ok failedInit ∧
      CP_Sound_Load groupFailBackend bumpAllocator sampleHeader failedInit (some "a.wav")
        = .error .invalidPointer ∧
      (CP_Sound_PauseAll groupFailBackend sampleHeader failedInit).map (fun s => s.calls)
        = .ok (failedInit.calls ++
          [FMODCall.ChannelGroup_SetPaused 102 FMOD_TRUE,
            FMODCall.ChannelGroup_SetPaused 103 FMOD_TRUE,
            FMODCall.ChannelGroup_SetPaused 104 FMOD_TRUE,
            FMODCall.ChannelGroup_SetPaused 0 FMOD_TRUE,
            FMODCall.ChannelGroup_SetPaused 0 FMOD_TRUE,
            FMODCall.ChannelGroup_SetPaused 0 FMOD_TRUE,
            FMODCall.ChannelGroup_SetPaused 0 FMOD_TRUE,
            FMODCall.ChannelGroup_SetPaused 0 FMOD_TRUE,
            FMODCall.ChannelGroup_SetPaused 0 FMOD_TRUE,
            FMODCall.ChannelGroup_SetPaused 0 FMOD_TRUE]) ∧
      (CP_Sound_StopGroup groupFailBackend sampleHeader failedInit 0).map (fun s => s.calls)
        = .ok (failedInit.calls ++ [FMODCall.ChannelGroup_Stop 102]) ∧
      (CP_Sound_ResetDSP groupFailBackend failedInit CP_SOUND_DSP_LOWPASS).map
          (fun s => s.calls)
        = .ok (failedInit.calls ++ [FMODCall.DSP_Reset NULL]) ∧
      (CP_Sound_SetGroupDSP groupFailBackend sampleHeader failedInit 0
          CP_SOUND_DSP_LOWPASS).map (fun s => s.calls)
        = .ok (failedInit.calls ++
          [FMODCall.ChannelGroup_AddDSP 102 0 NULL, FMODCall.DSP_SetActive NULL 1]) :=
  ⟨rfl, rfl, rfl, rfl, rfl, rfl⟩

/-- C12, amended. For `1 ≤ k ≤ CP_SOUND_GROUP_MAX`, when the backend creates a non-null
system, initialises it, creates the first `k - 1` channel groups and fails at the creation
number `k`, `CP_Sound_Init` returns having recorded the two system calls, `k` channel-group
creations, then as teardown a stop on every entry of `channel_groups` (the first `k` entries
hold what the backend stored, the later ones what they held before) and the release of the
system, and no other call; the sound vector is freed, the system handle is `NULL`, the DSP
registry and the standard output are as before.  From that state `CP_Sound_Update` and
`CP_Sound_Shutdown` return the state unchanged, whatever the backend. -/
theorem C12_group_failure_teardown (B : Backend) (H : Header) (s0 : State) (k : Nat)
    (hwf : s0.WF H) (hk1 : 1 ≤ k) (hkN : k ≤ H.CP_SOUND_GROUP_MAX)
    (hcreate : (B s0.calls.length).result = FMOD_OK)
    (hsys : (B s0.calls.length).handle ≠ NULL)
    (hinit : (B (s0.calls.length + 1)).result = FMOD_OK)
    (hok : ∀ t, t + 1 < k → (B (s0.calls.length + 2 + t)).result = FMOD_OK)
    (hfail : (B (s0.calls.length + 1 + k)).result ≠ FMOD_OK) :
    ∃ s, CP_Sound_Init B H s0 = .ok s ∧
      s.calls = s0.calls ++
        [FMODCall.System_Create,
          FMODCall.System_Init (B s0.calls.length).handle MAX_FMOD_CHANNELS] ++
        List.replicate k (FMODCall.System_CreateChannelGroup (B s0.calls.length).handle) ++
        s.channel_groups.map FMODCall.ChannelGroup_Stop ++
        [FMODCall.System_Release (B s0.calls.length).handle] ∧
      s.channel_groups.length = H.CP_SOUND_GROUP_MAX ∧
      (∀ t, t < k → s.channel_groups[t]? = some (B (s0.calls.length + 2 + t)).handle) ∧
      (∀ p, k ≤ p → s.channel_groups[p]? = s0.channel_groups[p]?) ∧
      s._fmod_system = NULL ∧ s.sound_vector = none ∧
      s.dsp_list = s0.dsp_list ∧ s.stdout = s0.stdout ∧
      (∀ B1 : Backend, CP_Sound_Update B1 H s = .ok s ∧ CP_Sound_Shutdown B1 H s = .ok s) := by
  obtain ⟨r, groups, hlen, hnew, hold, hrun⟩ :=
    Init_group_failure B H s0 k hwf hk1 hkN hcreate hsys hinit hok hfail
  exact ⟨_, hrun, rfl, hlen, hnew, hold, rfl, rfl, rfl, rfl, fun _ => ⟨rfl, rfl⟩⟩

/-- C12 (amended) at a concrete run: ten groups, `CP_Sound_Init` at program start, the third
channel-group creation fails. -/
theorem C12_group_failure_teardown_witness :
    ∃ s, CP_Sound_Init groupFailBackend sampleHeader (State.initial sampleHeader) = .ok s ∧
      s.calls = (State.initial sampleHeader).calls ++
        [FMODCall.System_Create, FMODCall.System_Init 100 MAX_FMOD_CHANNELS] ++
        List.replicate 3 (FMODCall.System_CreateChannelGroup 100) ++
        s.channel_groups.map FMODCall.ChannelGroup_Stop ++
        [FMODCall.System_Release 100] ∧
      s.channel_groups.length = 10 ∧
      (∀ t, t < 3 → s.channel_groups[t]? = some (groupFailBackend (0 + 2 + t)).handle) ∧
      (∀ p, 3 ≤ p → s.channel_groups[p]? = (State.initial sampleHeader).channel_groups[p]?) ∧
      s._fmod_system = NULL ∧ s.sound_vector = none ∧
      s.dsp_list = (State.initial sampleHeader).dsp_list ∧
      s.stdout = (State.initial sampleHeader).stdout ∧
      (∀ B1 : Backend, CP_Sound_Update B1 sampleHeader s = .ok s ∧
        CP_Sound_Shutdown B1 sampleHeader s = .ok s) :=
  C12_group_failure_teardown groupFailBackend sampleHeader (State.initial sampleHeader) 3
    (initial_WF sampleHeader) (by decide) (by decide) rfl (by decide) rfl
    (by
      intro t ht
      have h2 : t = 0 ∨ t = 1 := by omega
      rcases h2 with rfl | rfl <;> rfl)
    (by decide)

/-- The conversion to binary32 on known values: 0.1f; a tie broken to the even significand
above `2 ^ 24`; the largest finite value, the first real that rounds to an infinity; the
smallest subnormal, and half of it, which rounds to zero. -/
theorem F32_ofRat_samples :
    F32.ofRat 0.1 = .finite (13421773 / 134217728) ∧
      F32.ofRat 16777217 = .finite 16777216 ∧
      F32.ofRat 16777219 = .finite 16777220 ∧
      F32.ofRat (2 ^ 128 - 2 ^ 104) = .finite (2 ^ 128 - 2 ^ 104) ∧
      F32.ofRat (2 ^ 128 - 2 ^ 103) = .inf false ∧
      F32.ofRat (-(2 ^ 128)) = .inf true ∧
      F32.ofRat (1 / 2 ^ 149) = .finite (1 / 2 ^ 149) ∧
      F32.ofRat (1 / 2 ^ 150) = .finite 0 ∧
      F32.mul (.inf false) (.finite 0) = .nan := by
  decide!

/-- The bound on the halvings in `log2Floor` is never reached: with the bound `n` the result
is `Nat.log2 n`. -/
theorem log2Floor_eq_log2 (fuel : Nat) : ∀ n, n ≤ fuel → log2Floor fuel n = Nat.log2 n := by
  induction fuel with
  | zero =>
    intro n hn
    have h0 : n = 0 := Nat.le_zero.mp hn
    subst h0
    rw [Nat.log2]
    simp [log2Floor]
  | succ fuel ih =>
    intro n hn
    rw [Nat.log2]
    unfold log2Floor
    by_cases h2 : 2 ≤ n
    · have hhalf : n / 2 ≤ fuel := by omega
      rw [if_pos h2, if_pos h2, ih (n / 2) hhalf]
    · rw [if_neg h2, if_neg h2]

end CPSound
